import Mathlib

/-!
Shallow embedding of the AIvertCo agent-simulation program and proofs about
its department state machines and orchestrator loop.

Conventions of the embedding:
* `HashMap` collections become association lists; lookup returns the first
  entry with the key, insertion replaces any entry with the same key.
* Machine integers become `Nat`/`Int` with explicit `% 2 ^ w` where overflow
  matters (`u8`/`u32` wrap-around is written out).
* `f32` values that only feed comparisons and linear arithmetic become `ℚ`.
* Effects (fresh UUIDs, wall-clock time, random draws) become an explicit
  `Env` value holding the drawn results; fallible operations return an
  `Except` result paired with the post-state.
-/

namespace AIvertCo

/-- Opaque unique identifiers (`uuid::Uuid` in the program). -/
abbrev Uuid := Nat

/-- Lookup in the association-list model of `std::collections::HashMap`:
`get` returns the value of the first entry with the given key. -/
def hmLookup {α β : Type} [DecidableEq α] (k : α) : List (α × β) → Option β
  | [] => none
  | p :: rest => if p.1 = k then some p.2 else hmLookup k rest

/-- Insertion in the association-list model of `HashMap::insert`: the new
entry replaces any existing entry with the same key. -/
def hmInsert {α β : Type} [DecidableEq α] (k : α) (v : β) (m : List (α × β)) :
    List (α × β) :=
  (k, v) :: m.filter (fun p => if p.1 = k then false else true)

/-- Update of the entry with the given key (`HashMap::get_mut` followed by a
field update); the first matching entry is rewritten, all others stay. -/
def hmModify {α β : Type} [DecidableEq α] (k : α) (f : β → β) :
    List (α × β) → List (α × β)
  | [] => []
  | p :: rest => if p.1 = k then (p.1, f p.2) :: rest else p :: hmModify k f rest

/-- Truncation to 32 bits (`as u32` on a nonnegative value). -/
def u32 (n : Nat) : Nat := n % 2 ^ 32

/-- Truncation to 64 bits (`u64` wrap-around). -/
def u64 (n : Nat) : Nat := n % 2 ^ 64

/-- Reinterpretation of a nonnegative value as an `i32` (`as i32`). -/
def toI32 (n : Nat) : Int :=
  if n % 2 ^ 32 < 2 ^ 31 then (n % 2 ^ 32 : Nat) else (n % 2 ^ 32 : Nat) - 2 ^ 32

/-- Wrap-around of `i32` arithmetic: the result reduced into
`[-2^31, 2^31)`. -/
def i32wrap (z : Int) : Int := (z + 2 ^ 31) % 2 ^ 32 - 2 ^ 31

/-- Conversion of an `f32` value to `u8` by `as u8`: saturating at the range
bounds, truncating toward zero inside it. -/
def f32toU8 (q : ℚ) : Nat :=
  if q ≤ 0 then 0 else min 255 ⌊q⌋.toNat

/-- External effects consumed by one call into the program, made explicit:
the successively drawn fresh UUIDs (`Uuid::new_v4`), their hyphen-free
renderings (`.simple()`), the current wall-clock second (`chrono::Utc::now`),
the UUID string parser of the `uuid` crate, and the successive draws of
`rand::random` as rationals (for `f32`, each in `[0,1)`) and naturals (for
the unsigned integer types). -/
structure Env where
  freshUuid : Nat → Uuid
  uuidStr : Nat → String
  nowTs : Nat
  parseUuid : String → Option Uuid
  rand : Nat → ℚ
  randNat : Nat → Nat

/-- Departments of the company (`crate::agents::Department`), a closed set. -/
inductive Department where
  | Engineering | Sales | DevOps | InfoSec | Networking | Ops
  | Marketing | Finance | HR | Legal
deriving DecidableEq

/-- Modelled from the spec: the `Agent` record of `crate::agents` (the module
is not under `src/`) — identity, display name, department tag and optional
manager reference (spec section 3). -/
structure Agent where
  id : Uuid
  name : String
  department : Department
  manager_id : Option Uuid
deriving DecidableEq

/-- Modelled from the spec: `Agent::new` draws a fresh id at creation; the
embedding passes the drawn id explicitly. -/
def Agent.new (id : Uuid) (name : String) (department : Department)
    (manager_id : Option Uuid) : Agent :=
  ⟨id, name, department, manager_id⟩

/-- Modelled from the spec: message priorities of `crate::communication`
(Low/Normal/High/Urgent, spec section 3). -/
inductive MessagePriority where
  | Low | Normal | High | Urgent
deriving DecidableEq

/-- Modelled from the spec: the `Message` envelope of `crate::communication`
(the module is not under `src/`): id, sender, recipient, kind string,
free-text content, priority, timestamp and string-keyed metadata (spec
section 3), with the field names the department modules use. -/
structure Message where
  id : Uuid
  from_agent : Uuid
  to_agent : Uuid
  message_type : String
  content : String
  priority : MessagePriority
  timestamp : Nat
  metadata : List (String × String)
deriving DecidableEq

namespace Ops

/-- Ticket priorities (`departments::ops::Priority`). -/
inductive Priority where
  | Low | Normal | High | Urgent | Critical
deriving DecidableEq

/-- Support-ticket statuses (`departments::ops::TicketStatus`). -/
inductive TicketStatus where
  | Open | InProgress | PendingCustomer | Resolved | Closed
deriving DecidableEq

/-- Incident severities (`departments::ops::Severity`). -/
inductive Severity where
  | Sev1 | Sev2 | Sev3 | Sev4
deriving DecidableEq

/-- Ops incident statuses (`departments::ops::IncidentStatus`). -/
inductive IncidentStatus where
  | Open | Investigating | Mitigating | Resolved | PostMortem | Closed
deriving DecidableEq

/-- Change types (`departments::ops::ChangeType`). -/
inductive ChangeType where
  | Standard | Normal | Emergency | Major
deriving DecidableEq

/-- Risk levels (`departments::ops::RiskLevel`). -/
inductive RiskLevel where
  | Low | Medium | High | Critical
deriving DecidableEq

/-- Change-request statuses (`departments::ops::ChangeStatus`). -/
inductive ChangeStatus where
  | Draft | PendingApproval | Approved | Scheduled | InProgress
  | Completed | Failed | Cancelled
deriving DecidableEq

/-- A support ticket (`departments::ops::SupportTicket`). -/
structure SupportTicket where
  id : Uuid
  title : String
  description : String
  priority : Priority
  status : TicketStatus
  customer_id : Option String
  assigned_to : Option Uuid
  created_at : Nat
  updated_at : Nat
  resolution : Option String
  tags : List String
deriving DecidableEq

/-- An operations incident (`departments::ops::Incident`). -/
structure Incident where
  id : Uuid
  title : String
  description : String
  severity : Severity
  status : IncidentStatus
  affected_services : List String
  root_cause : Option String
  resolution : Option String
  created_at : Nat
  resolved_at : Option Nat
  assigned_team : Option String
deriving DecidableEq

/-- A service-level agreement (`departments::ops::SLA`). -/
structure SLA where
  service_name : String
  uptime_target : ℚ
  response_time_target : Nat
  resolution_time_target : Nat
  measurement_period : String
deriving DecidableEq

/-- A recorded SLA violation (`departments::ops::SLAViolation`). -/
structure SLAViolation where
  service : String
  violation_type : String
  timestamp : Nat
  impact : String
  resolution : Option String
deriving DecidableEq

/-- SLA bookkeeping (`departments::ops::SLATracking`). -/
structure SLATracking where
  slas : List (String × SLA)
  compliance : List (String × ℚ)
  violations : List SLAViolation
deriving DecidableEq

/-- A change request (`departments::ops::ChangeRequest`). -/
structure ChangeRequest where
  id : Uuid
  title : String
  description : String
  change_type : ChangeType
  risk_level : RiskLevel
  impact : String
  rollback_plan : String
  scheduled_time : Nat
  status : ChangeStatus
  requester : Uuid
  approver : Option Uuid
deriving DecidableEq

/-- The Ops agent state (`departments::ops::OpsAgent`). -/
structure OpsAgent where
  agent : Agent
  sysadmin_skill : Nat
  support_skill : Nat
  incident_skill : Nat
  support_tickets : List (Uuid × SupportTicket)
  incidents : List (Uuid × Incident)
  sla_tracking : SLATracking
  change_queue : List ChangeRequest
deriving DecidableEq

/-- Ops errors (`departments::ops::OpsError`). -/
inductive OpsError where
  | TicketNotFound (id : Uuid)
  | IncidentNotFound (id : Uuid)
  | ChangeNotFound (id : Uuid)
  | SLACalculationError (msg : String)
  | MaintenanceFailed (msg : String)
deriving DecidableEq

/-- A ticket-creation request (`departments::ops::TicketRequest`). -/
structure TicketRequest where
  title : String
  description : String
  priority : Priority
  customer_id : Option String
  tags : List String
deriving DecidableEq

/-- An incident declaration (`departments::ops::IncidentReport`). -/
structure IncidentReport where
  title : String
  description : String
  severity : Severity
  affected_services : List String
deriving DecidableEq

/-- An incident status update (`departments::ops::IncidentUpdate`). -/
structure IncidentUpdate where
  status : IncidentStatus
  root_cause : Option String
  resolution : Option String
deriving DecidableEq

/-- Maintenance task types (`departments::ops::MaintenanceType`). -/
inductive MaintenanceType where
  | SecurityPatch | DatabaseOptimization | BackupVerification
  | LogRotation | SystemUpdate
deriving DecidableEq

/-- A maintenance task (`departments::ops::MaintenanceTask`). -/
structure MaintenanceTask where
  title : String
  task_type : MaintenanceType
  scheduled_time : Nat
  estimated_duration : Nat
deriving DecidableEq

/-- Ticket counters of the operations report (`departments::ops::TicketSummary`). -/
structure TicketSummary where
  total_tickets : Nat
  open_tickets : Nat
  resolved_today : Nat
  average_resolution_time : ℚ
deriving DecidableEq

/-- Incident counters of the operations report (`departments::ops::IncidentSummary`). -/
structure IncidentSummary where
  total_incidents : Nat
  active_incidents : Nat
  sev1_incidents : Nat
  mttr : ℚ
deriving DecidableEq

/-- The operations report (`departments::ops::OpsReport`). -/
structure OpsReport where
  generated_at : Nat
  ticket_summary : TicketSummary
  incident_summary : IncidentSummary
  sla_compliance : List (String × ℚ)
  upcoming_changes : List String
deriving DecidableEq

/-- Default SLA tracking (`impl Default for SLATracking`): a single
`web-service` SLA with a 99.9 uptime target. -/
def SLATracking.default : SLATracking where
  slas := [("web-service",
    { service_name := "web-service", uptime_target := 999 / 10,
      response_time_target := 500, resolution_time_target := 4,
      measurement_period := "monthly" })]
  compliance := []
  violations := []

/-- Constructor `OpsAgent::new`; the freshly drawn agent id is passed in. -/
def OpsAgent.new (id : Uuid) (name : String) (manager_id : Option Uuid) : OpsAgent where
  agent := Agent.new id name .Ops manager_id
  sysadmin_skill := 88
  support_skill := 85
  incident_skill := 90
  support_tickets := []
  incidents := []
  sla_tracking := SLATracking.default
  change_queue := []

/-- Helper `OpsAgent::assign_ticket`: the ticket, when present, is assigned to
the handling agent itself and moved to `InProgress`; the call always succeeds. -/
def assign_ticket (s : OpsAgent) (ticket_id : Uuid) :
    Except OpsError Unit × OpsAgent :=
  let tickets := hmModify ticket_id
    (fun t => { t with assigned_to := some s.agent.id, status := .InProgress })
    s.support_tickets
  (.ok (), { s with support_tickets := tickets })

/-- Method `OpsAgent::create_ticket`: a fresh id is drawn, the ticket is
stored `Open` and unassigned, then auto-assigned via `assign_ticket`. -/
def create_ticket (env : Env) (s : OpsAgent) (req : TicketRequest) :
    Except OpsError Uuid × OpsAgent :=
  let ticket_id := env.freshUuid 0
  let ticket : SupportTicket :=
    { id := ticket_id, title := req.title, description := req.description,
      priority := req.priority, status := .Open,
      customer_id := req.customer_id, assigned_to := none,
      created_at := env.nowTs, updated_at := env.nowTs,
      resolution := none, tags := req.tags }
  let s1 := { s with support_tickets := hmInsert ticket_id ticket s.support_tickets }
  let r := assign_ticket s1 ticket_id
  (.ok ticket_id, r.2)

/-- Method `OpsAgent::declare_incident`: a fresh id is drawn and the incident
is stored with status `Open`. -/
def declare_incident (env : Env) (s : OpsAgent) (report : IncidentReport) :
    Except OpsError Uuid × OpsAgent :=
  let incident_id := env.freshUuid 0
  let incident : Incident :=
    { id := incident_id, title := report.title,
      description := report.description, severity := report.severity,
      status := .Open, affected_services := report.affected_services,
      root_cause := none, resolution := none, created_at := env.nowTs,
      resolved_at := none, assigned_team := none }
  (.ok incident_id, { s with incidents := hmInsert incident_id incident s.incidents })

/-- Field updates performed by `OpsAgent::update_incident` on the found
incident: the status is overwritten with the update's status; root cause and
resolution are filled in when provided, the resolution also stamps
`resolved_at`. -/
def applyIncidentUpdate (env : Env) (upd : IncidentUpdate) (inc : Incident) :
    Incident :=
  let inc1 := { inc with status := upd.status }
  let inc2 :=
    match upd.root_cause with
    | some rc => { inc1 with root_cause := some rc }
    | none => inc1
  match upd.resolution with
  | some res => { inc2 with resolution := some res, resolved_at := some env.nowTs }
  | none => inc2

/-- Method `OpsAgent::update_incident`: the found incident is rewritten by
`applyIncidentUpdate`; a missing id yields `IncidentNotFound`. -/
def update_incident (env : Env) (s : OpsAgent) (incident_id : Uuid)
    (upd : IncidentUpdate) : Except OpsError Unit × OpsAgent :=
  match hmLookup incident_id s.incidents with
  | some _ =>
    let incidents := hmModify incident_id (applyIncidentUpdate env upd) s.incidents
    (.ok (), { s with incidents := incidents })
  | none => (.error (.IncidentNotFound incident_id), s)

/-- Method `OpsAgent::submit_change_request`: the request is appended to the
change queue and its id returned. -/
def submit_change_request (s : OpsAgent) (cr : ChangeRequest) :
    Except OpsError Uuid × OpsAgent :=
  (.ok cr.id, { s with change_queue := s.change_queue ++ [cr] })

/-- The in-place update of `OpsAgent::approve_change`
(`iter_mut().find(|c| c.id == change_id)`): the first change with the id is
set to `Approved` with the given approver; `none` when no change matches. -/
def approveInQueue (change_id approver : Uuid) :
    List ChangeRequest → Option (List ChangeRequest)
  | [] => none
  | c :: rest =>
    if c.id = change_id then
      some ({ c with status := .Approved, approver := some approver } :: rest)
    else
      (approveInQueue change_id approver rest).map (c :: ·)

/-- Method `OpsAgent::approve_change`: the first queued change with the id is
approved; a missing id yields `ChangeNotFound` and no mutation. -/
def approve_change (s : OpsAgent) (change_id approver : Uuid) :
    Except OpsError Unit × OpsAgent :=
  match approveInQueue change_id approver s.change_queue with
  | some q => (.ok (), { s with change_queue := q })
  | none => (.error (.ChangeNotFound change_id), s)

/-- Loop body of `OpsAgent::monitor_sla` over the cloned SLA map: each service
gets a sampled compliance value `99 + r·2` recorded, and a violation appended
when the sample falls under the uptime target. -/
def monitorSlaGo (env : Env) : List (String × SLA) → Nat → OpsAgent → OpsAgent
  | [], _, s => s
  | (service_name, sla) :: rest, i, s =>
    let compliance : ℚ := 99 + env.rand i * 2
    let violation : SLAViolation :=
      { service := service_name, violation_type := "Uptime Target",
        timestamp := env.nowTs,
        impact := "Uptime " ++ toString compliance ++ "% below target "
          ++ toString sla.uptime_target ++ "%",
        resolution := none }
    let tr1 := { s.sla_tracking with
      compliance := hmInsert service_name compliance s.sla_tracking.compliance }
    let tr2 :=
      if compliance < sla.uptime_target then
        { tr1 with violations := tr1.violations ++ [violation] }
      else tr1
    monitorSlaGo env rest (i + 1) { s with sla_tracking := tr2 }

/-- Method `OpsAgent::monitor_sla`: every tracked SLA is re-sampled; the call
always succeeds. -/
def monitor_sla (env : Env) (s : OpsAgent) : Except OpsError Unit × OpsAgent :=
  (.ok (), monitorSlaGo env s.sla_tracking.slas 0 s)

/-- Method `OpsAgent::perform_maintenance`: log-only simulation, no state
change, always `Ok`. -/
def perform_maintenance (s : OpsAgent) (_task : MaintenanceTask) :
    Except OpsError Unit × OpsAgent :=
  (.ok (), s)

/-- Method `OpsAgent::generate_report`: a read-only summary of tickets,
incidents, SLA compliance and approved changes. -/
def generate_report (env : Env) (s : OpsAgent) :
    Except OpsError OpsReport × OpsAgent :=
  let report : OpsReport :=
    { generated_at := env.nowTs,
      ticket_summary :=
        { total_tickets := u32 s.support_tickets.length,
          open_tickets := u32 (s.support_tickets.countP
            (fun p => p.2.status = .Open)),
          resolved_today := 0,
          average_resolution_time := 21 / 5 },
      incident_summary :=
        { total_incidents := u32 s.incidents.length,
          active_incidents := u32 (s.incidents.countP
            (fun p => ¬ p.2.status = .Closed)),
          sev1_incidents := u32 (s.incidents.countP
            (fun p => p.2.severity = .Sev1)),
          mttr := 5 / 2 },
      sla_compliance := s.sla_tracking.compliance,
      upcoming_changes := (s.change_queue.filter
        (fun c => c.status = .Approved)).map (·.title) }
  (.ok report, s)

/-- Message kinds the Ops `process_message` recognizes. -/
def recognizedKinds : List String :=
  ["create_ticket", "declare_incident", "sla_check", "maintenance_task",
   "generate_report"]

/-- Trait method `process_message` of `OpsAgent`: sequential dispatch on the
message-kind string; an unrecognized kind is only logged and accepted. -/
def process_message (env : Env) (s : OpsAgent) (msg : Message) :
    Except OpsError Unit × OpsAgent :=
  if msg.message_type = "create_ticket" then
    let req : TicketRequest :=
      { title := (hmLookup "title" msg.metadata).getD "Support Request",
        description := msg.content, priority := .Normal,
        customer_id := hmLookup "customer_id" msg.metadata, tags := [] }
    let r := create_ticket env s req
    (r.1.map (fun _ => ()), r.2)
  else if msg.message_type = "declare_incident" then
    let report : IncidentReport :=
      { title := (hmLookup "title" msg.metadata).getD "System Incident",
        description := msg.content, severity := .Sev3,
        affected_services := ["unknown"] }
    let r := declare_incident env s report
    (r.1.map (fun _ => ()), r.2)
  else if msg.message_type = "sla_check" then
    monitor_sla env s
  else if msg.message_type = "maintenance_task" then
    perform_maintenance s
      { title := (hmLookup "title" msg.metadata).getD "System Maintenance",
        task_type := .SecurityPatch, scheduled_time := env.nowTs,
        estimated_duration := 30 }
  else if msg.message_type = "generate_report" then
    let r := generate_report env s
    (r.1.map (fun _ => ()), r.2)
  else
    (.ok (), s)

end Ops

namespace InfoSec

/-- Security severities (`departments::infosec::Severity`). -/
inductive Severity where
  | Critical | High | Medium | Low | Info
deriving DecidableEq

/-- Security-incident statuses (`departments::infosec::IncidentStatus`). -/
inductive IncidentStatus where
  | Open | Investigating | Mitigating | Resolved | Closed
deriving DecidableEq

/-- Security-event types (`departments::infosec::EventType`). -/
inductive EventType where
  | UnauthorizedAccess | MalwareDetected | DDoSAttack | DataBreach
  | PolicyViolation | SuspiciousActivity | SystemCompromise
deriving DecidableEq

/-- Security-control types (`departments::infosec::ControlType`). -/
inductive ControlType where
  | AccessControl | Encryption | NetworkSecurity | EndpointProtection
  | Monitoring | IncidentResponse
deriving DecidableEq

/-- Security-control statuses (`departments::infosec::ControlStatus`). -/
inductive ControlStatus where
  | Active | Inactive | Degraded | Failed
deriving DecidableEq

/-- Vulnerability counts by severity (`departments::infosec::VulnerabilityCounts`),
all `u32` in the program. -/
structure VulnerabilityCounts where
  critical : Nat
  high : Nat
  medium : Nat
  low : Nat
  info : Nat
deriving DecidableEq

/-- A security control (`departments::infosec::SecurityControl`). -/
structure SecurityControl where
  id : String
  name : String
  control_type : ControlType
  status : ControlStatus
  last_check : Nat
  effectiveness : Nat
deriving DecidableEq

/-- A security event (`departments::infosec::SecurityEvent`). -/
structure SecurityEvent where
  id : Uuid
  event_type : EventType
  severity : Severity
  description : String
  source : String
  timestamp : Nat
  resolved : Bool
deriving DecidableEq

/-- The derived security posture (`departments::infosec::SecurityPosture`);
`overall_score` is a `u8`. -/
structure SecurityPosture where
  overall_score : Nat
  vulnerabilities : VulnerabilityCounts
  active_controls : List SecurityControl
  recent_events : List SecurityEvent
  last_assessment : Nat
deriving DecidableEq

/-- A security incident (`departments::infosec::SecurityIncident`). -/
structure SecurityIncident where
  id : Uuid
  title : String
  description : String
  severity : Severity
  status : IncidentStatus
  assigned_to : Option Uuid
  created_at : Nat
  updated_at : Nat
  resolution_steps : List String
  affected_systems : List String
deriving DecidableEq

/-- An open compliance issue (`departments::infosec::ComplianceIssue`). -/
structure ComplianceIssue where
  id : String
  standard : String
  requirement : String
  severity : Severity
  status : String
  due_date : Nat
deriving DecidableEq

/-- Compliance bookkeeping (`departments::infosec::ComplianceStatus`); the
three scores are `u8`. -/
structure ComplianceStatus where
  gdpr_compliance : Nat
  soc2_compliance : Nat
  iso27001_compliance : Nat
  last_audit : Nat
  open_issues : List ComplianceIssue
deriving DecidableEq

/-- The InfoSec agent state (`departments::infosec::InfoSecAgent`). -/
structure InfoSecAgent where
  agent : Agent
  security_skill : Nat
  threat_detection_skill : Nat
  incident_response_skill : Nat
  security_posture : SecurityPosture
  active_incidents : List (Uuid × SecurityIncident)
  compliance_status : ComplianceStatus
deriving DecidableEq

/-- InfoSec errors (`departments::infosec::InfoSecError`). -/
inductive InfoSecError where
  | ScanFailed (msg : String)
  | IncidentHandlingFailed (msg : String)
  | ComplianceAuditFailed (msg : String)
  | SecurityControlError (msg : String)
deriving DecidableEq

/-- A vulnerability finding (`departments::infosec::Vulnerability`). -/
structure Vulnerability where
  id : String
  title : String
  severity : Severity
  cvss_score : ℚ
  description : String
  affected_system : String
  remediation : String
  discovered_at : Nat
deriving DecidableEq

/-- Scan statuses (`departments::infosec::ScanStatus`). -/
inductive ScanStatus where
  | Pending | InProgress | Completed | Failed
deriving DecidableEq

/-- Results of a vulnerability scan (`departments::infosec::ScanResults`);
`vulnerabilities_found` is `u32`. -/
structure ScanResults where
  target : String
  scan_start : Nat
  scan_end : Nat
  vulnerabilities_found : Nat
  vulnerabilities : List Vulnerability
  scan_status : ScanStatus
deriving DecidableEq

/-- A reported incident (`departments::infosec::IncidentReport`). -/
structure IncidentReport where
  title : String
  description : String
  severity : Severity
  affected_systems : List String
deriving DecidableEq

/-- Compliance audit results (`departments::infosec::AuditResults`); score
fields are `u8`. -/
structure AuditResults where
  audit_date : Nat
  gdpr_compliance : Nat
  soc2_compliance : Nat
  iso27001_compliance : Nat
  overall_compliance : Nat
  issues_found : List String
  recommendations : List String
deriving DecidableEq

/-- Default security posture (`impl Default for SecurityPosture`). -/
def SecurityPosture.default (now : Nat) : SecurityPosture where
  overall_score := 85
  vulnerabilities := { critical := 0, high := 2, medium := 5, low := 12, info := 25 }
  active_controls := []
  recent_events := []
  last_assessment := now

/-- Default compliance status (`impl Default for ComplianceStatus`). -/
def ComplianceStatus.default (now : Nat) : ComplianceStatus where
  gdpr_compliance := 85
  soc2_compliance := 88
  iso27001_compliance := 82
  last_audit := now
  open_issues := []

/-- Constructor `InfoSecAgent::new`; the freshly drawn agent id and creation
time are passed in. -/
def InfoSecAgent.new (id : Uuid) (now : Nat) (name : String)
    (manager_id : Option Uuid) : InfoSecAgent where
  agent := Agent.new id name .InfoSec manager_id
  security_skill := 95
  threat_detection_skill := 90
  incident_response_skill := 85
  security_posture := SecurityPosture.default now
  active_incidents := []
  compliance_status := ComplianceStatus.default now

/-- The `u32` penalty of `update_security_posture`:
`critical * 20 + high * 10 + medium * 5` in wrapping `u32` arithmetic. -/
def vulnPenalty (v : VulnerabilityCounts) : Nat :=
  u32 (u32 (u32 (v.critical * 20) + u32 (v.high * 10)) + u32 (v.medium * 5))

/-- Method `InfoSecAgent::update_security_posture`: the vulnerability counts
are recomputed from the scan's findings (`usize` counts cast `as u32`), the
penalty is `20·critical + 10·high + 5·medium` cast `as i32`, and
`overall_score` becomes `(100i32 - penalty).max(0) as u8`. -/
def update_security_posture (env : Env) (s : InfoSecAgent)
    (scan_results : ScanResults) : Except InfoSecError Unit × InfoSecAgent :=
  let counts : VulnerabilityCounts :=
    { critical := u32 (scan_results.vulnerabilities.countP (fun v => v.severity = .Critical)),
      high := u32 (scan_results.vulnerabilities.countP (fun v => v.severity = .High)),
      medium := u32 (scan_results.vulnerabilities.countP (fun v => v.severity = .Medium)),
      low := u32 (scan_results.vulnerabilities.countP (fun v => v.severity = .Low)),
      info := u32 (scan_results.vulnerabilities.countP (fun v => v.severity = .Info)) }
  let vuln_penalty : Int := toI32 (vulnPenalty counts)
  let score : Int := max (i32wrap (100 - vuln_penalty)) 0
  let posture := { s.security_posture with
    vulnerabilities := counts,
    overall_score := (score % 256).toNat,
    last_assessment := env.nowTs }
  (.ok (), { s with security_posture := posture })

/-- Method `InfoSecAgent::perform_vulnerability_scan`: the synthetic finding
set is a single `Medium` vulnerability on the target; the posture is then
recomputed from it. -/
def perform_vulnerability_scan (env : Env) (s : InfoSecAgent) (target : String) :
    Except InfoSecError ScanResults × InfoSecAgent :=
  let vulnerabilities : List Vulnerability :=
    [{ id := "CVE-2024-" ++ toString (env.randNat 0 % 10000),
       title := "Sample Vulnerability", severity := .Medium,
       cvss_score := 13 / 2, description := "Sample vulnerability description",
       affected_system := target, remediation := "Apply security patch",
       discovered_at := env.nowTs }]
  let results : ScanResults :=
    { target := target, scan_start := env.nowTs, scan_end := env.nowTs,
      vulnerabilities_found := u32 vulnerabilities.length,
      vulnerabilities := vulnerabilities, scan_status := .Completed }
  let r := update_security_posture env s results
  (r.1.map (fun _ => results), r.2)

/-- Method `InfoSecAgent::handle_incident`: a fresh id is drawn and the
incident stored `Open`, assigned to the handling agent itself. -/
def handle_incident (env : Env) (s : InfoSecAgent) (report : IncidentReport) :
    Except InfoSecError Uuid × InfoSecAgent :=
  let incident_id := env.freshUuid 0
  let incident : SecurityIncident :=
    { id := incident_id, title := report.title,
      description := report.description, severity := report.severity,
      status := .Open, assigned_to := some s.agent.id,
      created_at := env.nowTs, updated_at := env.nowTs,
      resolution_steps := ["Initial assessment"],
      affected_systems := report.affected_systems }
  (.ok incident_id,
   { s with active_incidents := hmInsert incident_id incident s.active_incidents })

/-- The fixed list of required controls in
`InfoSecAgent::update_security_controls`. -/
def requiredControls : List (String × String × ControlType) :=
  [("access_control", "Multi-Factor Authentication", .AccessControl),
   ("encryption", "Data Encryption at Rest", .Encryption),
   ("firewall", "Network Firewall", .NetworkSecurity),
   ("monitoring", "Security Information and Event Management", .Monitoring)]

/-- Loop body of `InfoSecAgent::update_security_controls`: each required
control absent from the active list (by id) is appended as `Active`. -/
def ensureControls (env : Env) : List (String × String × ControlType) →
    List SecurityControl → List SecurityControl
  | [], cs => cs
  | (id, name, ty) :: rest, cs =>
    let cs1 :=
      if cs.any (fun c => c.id = id) then cs
      else cs ++ [{ id := id, name := name, control_type := ty,
                    status := .Active, last_check := env.nowTs,
                    effectiveness := 85 }]
    ensureControls env rest cs1

/-- Method `InfoSecAgent::update_security_controls`: the required controls are
made present; the call always succeeds. -/
def update_security_controls (env : Env) (s : InfoSecAgent) :
    Except InfoSecError Unit × InfoSecAgent :=
  let posture := { s.security_posture with
    active_controls := ensureControls env requiredControls
      s.security_posture.active_controls }
  (.ok (), { s with security_posture := posture })

/-- Method `InfoSecAgent::perform_compliance_audit`: three scores are sampled
(`(r·20+80) as u8`, `(r·15+85) as u8`, `(r·10+90) as u8` for successive
`rand::random::<f32>()` draws), stored, and combined into
`(gdpr + soc2 + iso) / 3` in `u8` arithmetic — the sum wraps modulo 256 (the
release-build behavior; a debug build panics on the overflow). -/
def perform_compliance_audit (env : Env) (s : InfoSecAgent) :
    Except InfoSecError AuditResults × InfoSecAgent :=
  let gdpr_score := f32toU8 (env.rand 0 * 20 + 80)
  let soc2_score := f32toU8 (env.rand 1 * 15 + 85)
  let iso_score := f32toU8 (env.rand 2 * 10 + 90)
  let compliance := { s.compliance_status with
    gdpr_compliance := gdpr_score,
    soc2_compliance := soc2_score,
    iso27001_compliance := iso_score,
    last_audit := env.nowTs }
  let results : AuditResults :=
    { audit_date := env.nowTs,
      gdpr_compliance := gdpr_score,
      soc2_compliance := soc2_score,
      iso27001_compliance := iso_score,
      overall_compliance := ((gdpr_score + soc2_score) % 256 + iso_score) % 256 / 3,
      issues_found := [],
      recommendations :=
        ["Review access control policies",
         "Update encryption standards",
         "Enhance monitoring capabilities"] }
  (.ok results, { s with compliance_status := compliance })

/-- Lower-cased `Debug` rendering of an event type, as produced by
`format!("{:?}", event_type).to_lowercase()`. -/
def EventType.lowerDebug : EventType → String
  | .UnauthorizedAccess => "unauthorizedaccess"
  | .MalwareDetected => "malwaredetected"
  | .DDoSAttack => "ddosattack"
  | .DataBreach => "databreach"
  | .PolicyViolation => "policyviolation"
  | .SuspiciousActivity => "suspiciousactivity"
  | .SystemCompromise => "systemcompromise"

/-- Lower-cased `Debug` rendering of a severity, as produced by
`format!("{:?}", severity).to_lowercase()`. -/
def Severity.lowerDebug : Severity → String
  | .Critical => "critical"
  | .High => "high"
  | .Medium => "medium"
  | .Low => "low"
  | .Info => "info"

/-- Method `InfoSecAgent::monitor_threats`: with the first draw under 0.1 a
synthetic event is generated (type picked by an index draw, severity by a
second `f32` draw) and appended to the recent events; otherwise nothing
happens. -/
def monitor_threats (env : Env) (s : InfoSecAgent) :
    Except InfoSecError (List SecurityEvent) × InfoSecAgent :=
  if env.rand 0 < 1 / 10 then
    let event_types : List EventType :=
      [.SuspiciousActivity, .UnauthorizedAccess, .MalwareDetected]
    let event_type := event_types.getD (env.randNat 0 % event_types.length)
      .SuspiciousActivity
    let severity : Severity :=
      if env.rand 1 < 1 / 10 then .Critical
      else if env.rand 1 < 3 / 10 then .High
      else if env.rand 1 < 6 / 10 then .Medium
      else .Low
    let event : SecurityEvent :=
      { id := env.freshUuid 0, event_type := event_type, severity := severity,
        description := "Detected " ++ event_type.lowerDebug ++ " with "
          ++ severity.lowerDebug ++ " severity",
        source := "threat_monitoring_system", timestamp := env.nowTs,
        resolved := false }
    let posture := { s.security_posture with
      recent_events := s.security_posture.recent_events ++ [event] }
    (.ok [event], { s with security_posture := posture })
  else
    (.ok [], s)

/-- Message kinds the InfoSec `process_message` recognizes. -/
def recognizedKinds : List String :=
  ["vulnerability_scan", "incident_report", "threat_check",
   "compliance_audit", "security_update"]

/-- Trait method `process_message` of `InfoSecAgent`: sequential dispatch on
the message-kind string; an unrecognized kind is only logged and accepted. -/
def process_message (env : Env) (s : InfoSecAgent) (msg : Message) :
    Except InfoSecError Unit × InfoSecAgent :=
  if msg.message_type = "vulnerability_scan" then
    match hmLookup "target" msg.metadata with
    | some target =>
      let r := perform_vulnerability_scan env s target
      (r.1.map (fun _ => ()), r.2)
    | none => (.ok (), s)
  else if msg.message_type = "incident_report" then
    let report : IncidentReport :=
      { title := (hmLookup "title" msg.metadata).getD "Security Incident",
        description := msg.content, severity := .High,
        affected_systems := ["unknown"] }
    let r := handle_incident env s report
    (r.1.map (fun _ => ()), r.2)
  else if msg.message_type = "threat_check" then
    let r := monitor_threats env s
    (r.1.map (fun _ => ()), r.2)
  else if msg.message_type = "compliance_audit" then
    let r := perform_compliance_audit env s
    (r.1.map (fun _ => ()), r.2)
  else if msg.message_type = "security_update" then
    update_security_controls env s
  else
    (.ok (), s)

end InfoSec

namespace DevOps

/-- Server states (`departments::devops::ServerState`). -/
inductive ServerState where
  | Online | Offline | Degraded | Maintenance | Critical
deriving DecidableEq

/-- A server with utilization metrics (`departments::devops::ServerStatus`);
usage percentages are `f32`, uptime is `u64`. -/
structure ServerStatus where
  id : String
  hostname : String
  status : ServerState
  cpu_usage : ℚ
  memory_usage : ℚ
  disk_usage : ℚ
  uptime : Nat
  last_check : Nat
deriving DecidableEq

/-- Cluster health (`departments::devops::ClusterHealth`). -/
inductive ClusterHealth where
  | Healthy | Degraded | Critical | Offline
deriving DecidableEq

/-- A container cluster (`departments::devops::ClusterStatus`). -/
structure ClusterStatus where
  name : String
  nodes : List String
  healthy_nodes : Nat
  status : ClusterHealth
  last_health_check : Nat
deriving DecidableEq

/-- Monitoring systems (`departments::devops::MonitoringStatus`);
`active_alerts` is `u32`. -/
structure MonitoringStatus where
  prometheus_up : Bool
  grafana_up : Bool
  alertmanager_up : Bool
  active_alerts : Nat
  last_update : Nat
deriving DecidableEq

/-- Backup systems (`departments::devops::BackupStatus`); the day and backup
counters are `u32`. -/
structure BackupStatus where
  last_backup : Nat
  backup_success : Bool
  retention_days : Nat
  total_backups : Nat
deriving DecidableEq

/-- Infrastructure state (`departments::devops::InfrastructureState`). -/
structure InfrastructureState where
  servers : List (String × ServerStatus)
  clusters : List (String × ClusterStatus)
  monitoring : MonitoringStatus
  backups : BackupStatus
deriving DecidableEq

/-- Deployment statuses (`departments::devops::DeploymentStatus`). -/
inductive DeploymentStatus where
  | Pending | InProgress | Success | Failed | RolledBack
deriving DecidableEq

/-- Step statuses (`departments::devops::StepStatus`). -/
inductive StepStatus where
  | Pending | Running | Success | Failed | Skipped
deriving DecidableEq

/-- A deployment step (`departments::devops::DeploymentStep`); the timeout is
`u32` seconds. -/
structure DeploymentStep where
  name : String
  command : String
  timeout_seconds : Nat
  status : StepStatus
  output : Option String
  error : Option String
deriving DecidableEq

/-- A deployment record (`departments::devops::Deployment`); `current_step`
is a `usize` cursor. -/
structure Deployment where
  id : Uuid
  project_id : Uuid
  environment : String
  status : DeploymentStatus
  start_time : Nat
  steps : List DeploymentStep
  current_step : Nat
deriving DecidableEq

/-- The DevOps agent state (`departments::devops::DevOpsAgent`). -/
structure DevOpsAgent where
  agent : Agent
  infrastructure_skill : Nat
  deployment_skill : Nat
  monitoring_skill : Nat
  infrastructure_state : InfrastructureState
  active_deployments : List (Uuid × Deployment)
deriving DecidableEq

/-- DevOps errors (`departments::devops::DevOpsError`). -/
inductive DevOpsError where
  | ServerNotFound (id : String)
  | DeploymentFailed (msg : String)
  | InfrastructureError (msg : String)
  | MonitoringError (msg : String)
deriving DecidableEq

/-- A server-provisioning request (`departments::devops::ServerConfig`). -/
structure ServerConfig where
  hostname : String
  cpu_cores : Nat
  memory_gb : Nat
  disk_gb : Nat
deriving DecidableEq

/-- A deployment request (`departments::devops::DeploymentConfig`). -/
structure DeploymentConfig where
  project_id : Uuid
  environment : String
  steps : List DeploymentStep
deriving DecidableEq

/-- Default infrastructure state (`impl Default for InfrastructureState`). -/
def InfrastructureState.default (now : Nat) : InfrastructureState where
  servers := []
  clusters := []
  monitoring :=
    { prometheus_up := true, grafana_up := true, alertmanager_up := true,
      active_alerts := 0, last_update := now }
  backups :=
    { last_backup := now, backup_success := true, retention_days := 30,
      total_backups := 0 }

/-- Constructor `DevOpsAgent::new`; the freshly drawn agent id and creation
time are passed in. -/
def DevOpsAgent.new (id : Uuid) (now : Nat) (name : String)
    (manager_id : Option Uuid) : DevOpsAgent where
  agent := Agent.new id name .DevOps manager_id
  infrastructure_skill := 85
  deployment_skill := 90
  monitoring_skill := 80
  infrastructure_state := InfrastructureState.default now
  active_deployments := []

/-- Method `DevOpsAgent::provision_server`: a fresh `srv-{uuid}` id is drawn
(the uuid rendering is the `k`-th draw), the server starts `Online` with zero
utilization, and is inserted into the server map. -/
def provision_server (env : Env) (k : Nat) (s : DevOpsAgent)
    (server_config : ServerConfig) : Except DevOpsError ServerStatus × DevOpsAgent :=
  let server_id := "srv-" ++ env.uuidStr k
  let server : ServerStatus :=
    { id := server_id, hostname := server_config.hostname, status := .Online,
      cpu_usage := 0, memory_usage := 0, disk_usage := 0, uptime := 0,
      last_check := env.nowTs }
  let infra := { s.infrastructure_state with
    servers := hmInsert server_id server s.infrastructure_state.servers }
  (.ok server, { s with infrastructure_state := infra })

/-- Method `DevOpsAgent::deploy_application`: a fresh deployment id is drawn,
the record is stored with status `Pending` and `current_step` 0, a detached
execution task is spawned (not awaited), and the id is returned immediately. -/
def deploy_application (env : Env) (s : DevOpsAgent)
    (deployment_config : DeploymentConfig) : Except DevOpsError Uuid × DevOpsAgent :=
  let deployment_id := env.freshUuid 0
  let deployment : Deployment :=
    { id := deployment_id, project_id := deployment_config.project_id,
      environment := deployment_config.environment, status := .Pending,
      start_time := env.nowTs, steps := deployment_config.steps,
      current_step := 0 }
  (.ok deployment_id,
   { s with active_deployments :=
       hmInsert deployment_id deployment s.active_deployments })

/-- The detached task `DevOpsAgent::execute_deployment`: it only logs; it has
no access to the agent state and performs no state change. -/
def execute_deployment (_deployment_id : Uuid) (s : DevOpsAgent) : DevOpsAgent :=
  s

/-- Health recomputation of `DevOpsAgent::check_server_health` on the found
server, from three random draws at indices `3i`, `3i+1`, `3i+2`:
`cpu = min(r·100, 95)`, `mem = min(r·100, 90)`, `disk = min(r·100, 85)`,
uptime advanced by 300, and the state derived from the fixed thresholds. -/
def refreshServer (env : Env) (i : Nat) (server : ServerStatus) : ServerStatus :=
  let cpu := min (env.rand (3 * i) * 100) 95
  let mem := min (env.rand (3 * i + 1) * 100) 90
  let disk := min (env.rand (3 * i + 2) * 100) 85
  let status : ServerState :=
    if cpu > 90 ∨ mem > 90 then .Critical
    else if cpu > 75 ∨ mem > 75 then .Degraded
    else .Online
  { server with
    cpu_usage := cpu
    memory_usage := mem
    disk_usage := disk
    uptime := u64 (server.uptime + 300)
    last_check := env.nowTs
    status := status }

/-- Method `DevOpsAgent::check_server_health` (with draw index `i`): the named
server is refreshed; a missing id yields `ServerNotFound`. -/
def check_server_health (env : Env) (i : Nat) (s : DevOpsAgent)
    (server_id : String) : Except DevOpsError Unit × DevOpsAgent :=
  match hmLookup server_id s.infrastructure_state.servers with
  | some _ =>
    let infra := { s.infrastructure_state with
      servers := hmModify server_id (refreshServer env i)
        s.infrastructure_state.servers }
    (.ok (), { s with infrastructure_state := infra })
  | none => (.error (.ServerNotFound server_id), s)

/-- Loop of the `health_check` message branch over the snapshot of server
keys, indexing the random draws by loop position; an error aborts the loop as
`?` does. -/
def healthCheckGo (env : Env) : List String → Nat → DevOpsAgent →
    Except DevOpsError Unit × DevOpsAgent
  | [], _, s => (.ok (), s)
  | server_id :: rest, i, s =>
    let r := check_server_health env i s server_id
    match r.1 with
    | .error e => (.error e, r.2)
    | .ok _ => healthCheckGo env rest (i + 1) r.2

/-- The auto-scale breach condition: cpu or memory usage above 80%. -/
def breach (server : ServerStatus) : Prop :=
  server.cpu_usage > 80 ∨ server.memory_usage > 80

instance (server : ServerStatus) : Decidable (breach server) :=
  inferInstanceAs (Decidable (_ ∨ _))

/-- Loop of `DevOpsAgent::auto_scale` over the cloned server map: each server
above the 80% cpu/memory threshold triggers one `provision_server` with
hostname `{host}-scale-{timestamp}` (fresh uuid draw `k`), and an action
string is recorded; other servers are skipped. -/
def autoScaleGo (env : Env) : List (String × ServerStatus) → Nat →
    List String → DevOpsAgent → List String × DevOpsAgent
  | [], _, actions, s => (actions, s)
  | (_, server) :: rest, k, actions, s =>
    if breach server then
      let cfg : ServerConfig :=
        { hostname := server.hostname ++ "-scale-" ++ toString env.nowTs,
          cpu_cores := 4, memory_gb := 8, disk_gb := 100 }
      let r := provision_server env k s cfg
      match r.1 with
      | .ok new_server =>
        autoScaleGo env rest (k + 1)
          (actions ++ ["Scaled up: added server " ++ new_server.hostname]) r.2
      | .error _ => autoScaleGo env rest (k + 1) actions r.2
    else
      autoScaleGo env rest k actions s

/-- Method `DevOpsAgent::auto_scale`: the snapshot of the server map is
inspected against the 80% threshold; the recorded actions are returned. -/
def auto_scale (env : Env) (s : DevOpsAgent) :
    Except DevOpsError (List String) × DevOpsAgent :=
  let r := autoScaleGo env s.infrastructure_state.servers 0 [] s
  (.ok r.1, r.2)

/-- Method `DevOpsAgent::perform_backup`: the backup bookkeeping is stamped
successful and the `u32` counter advanced. -/
def perform_backup (env : Env) (s : DevOpsAgent) :
    Except DevOpsError Unit × DevOpsAgent :=
  let backups := { s.infrastructure_state.backups with
    last_backup := env.nowTs, backup_success := true,
    total_backups := u32 (s.infrastructure_state.backups.total_backups + 1) }
  let infra := { s.infrastructure_state with backups := backups }
  (.ok (), { s with infrastructure_state := infra })

/-- The fixed three-step pipeline built by the `deploy_request` message
branch. -/
def defaultSteps : List DeploymentStep :=
  [{ name := "Build", command := "cargo build --release", timeout_seconds := 300,
     status := .Pending, output := none, error := none },
   { name := "Test", command := "cargo test", timeout_seconds := 600,
     status := .Pending, output := none, error := none },
   { name := "Deploy", command := "./deploy.sh", timeout_seconds := 300,
     status := .Pending, output := none, error := none }]

/-- Message kinds the DevOps `process_message` recognizes. -/
def recognizedKinds : List String :=
  ["deploy_request", "health_check", "scale_request", "backup_request"]

/-- Trait method `process_message` of `DevOpsAgent`: sequential dispatch on
the message-kind string; an unrecognized kind is only logged and accepted. -/
def process_message (env : Env) (s : DevOpsAgent) (msg : Message) :
    Except DevOpsError Unit × DevOpsAgent :=
  if msg.message_type = "deploy_request" then
    match hmLookup "project_id" msg.metadata with
    | some project_id =>
      match env.parseUuid project_id with
      | some project_uuid =>
        let cfg : DeploymentConfig :=
          { project_id := project_uuid,
            environment := (hmLookup "environment" msg.metadata).getD "staging",
            steps := defaultSteps }
        let r := deploy_application env s cfg
        (r.1.map (fun _ => ()), r.2)
      | none => (.ok (), s)
    | none => (.ok (), s)
  else if msg.message_type = "health_check" then
    healthCheckGo env (s.infrastructure_state.servers.map (·.1)) 0 s
  else if msg.message_type = "scale_request" then
    let r := auto_scale env s
    (r.1.map (fun _ => ()), r.2)
  else if msg.message_type = "backup_request" then
    perform_backup env s
  else
    (.ok (), s)

/-- A self-addressed message as built inside `perform_daily_tasks`. -/
def dailyMsg (env : Env) (agent_id : Uuid) (kind content : String) : Message :=
  { id := env.freshUuid 0, from_agent := agent_id, to_agent := agent_id,
    message_type := kind, content := content, priority := .Normal,
    timestamp := env.nowTs, metadata := [] }

/-- Trait method `perform_daily_tasks` of `DevOpsAgent`: three self-addressed
messages (health check, backup, scaling check) processed in order, each call
consuming its own effect draws; an error aborts the sequence as `?` does. -/
def perform_daily_tasks (e1 e2 e3 : Env) (s : DevOpsAgent) :
    Except DevOpsError Unit × DevOpsAgent :=
  let r1 := process_message e1 s
    (dailyMsg e1 s.agent.id "health_check" "Daily health check")
  match r1.1 with
  | .error e => (.error e, r1.2)
  | .ok _ =>
    let r2 := process_message e2 r1.2
      (dailyMsg e2 s.agent.id "backup_request" "Daily backup")
    match r2.1 with
    | .error e => (.error e, r2.2)
    | .ok _ =>
      process_message e3 r2.2
        (dailyMsg e3 s.agent.id "scale_request" "Daily scaling check")

/-- The operations of the DevOps agent (and its detached executor) that can
run after a deployment is submitted. -/
inductive DevOpsOp where
  | procMsg (env : Env) (msg : Message)
  | daily (e1 e2 e3 : Env)
  | provision (env : Env) (k : Nat) (cfg : ServerConfig)
  | deploy (env : Env) (cfg : DeploymentConfig)
  | execute (id : Uuid)
  | healthCheck (env : Env) (i : Nat) (server_id : String)
  | scale (env : Env)
  | backup (env : Env)

/-- State transition of one DevOps operation (return values dropped). -/
def DevOpsOp.apply (s : DevOpsAgent) : DevOpsOp → DevOpsAgent
  | .procMsg env msg => (process_message env s msg).2
  | .daily e1 e2 e3 => (perform_daily_tasks e1 e2 e3 s).2
  | .provision env k cfg => (provision_server env k s cfg).2
  | .deploy env cfg => (deploy_application env s cfg).2
  | .execute id => execute_deployment id s
  | .healthCheck env i server_id => (check_server_health env i s server_id).2
  | .scale env => (auto_scale env s).2
  | .backup env => (perform_backup env s).2

/-- An operation avoids a deployment id when none of its fresh uuid draws can
collide with it (uuids are fresh, so a previously returned id is never drawn
again). -/
def DevOpsOp.avoids (id : Uuid) : DevOpsOp → Prop
  | .procMsg env _ => ∀ k, env.freshUuid k ≠ id
  | .daily e1 e2 e3 =>
    (∀ k, e1.freshUuid k ≠ id) ∧ (∀ k, e2.freshUuid k ≠ id) ∧
    (∀ k, e3.freshUuid k ≠ id)
  | .provision env _ _ => ∀ k, env.freshUuid k ≠ id
  | .deploy env _ => ∀ k, env.freshUuid k ≠ id
  | .execute _ => True
  | .healthCheck env _ _ => ∀ k, env.freshUuid k ≠ id
  | .scale env => ∀ k, env.freshUuid k ≠ id
  | .backup env => ∀ k, env.freshUuid k ≠ id

/-- A whole run suffix: the fold of a list of operations. -/
def runOps (ops : List DevOpsOp) (s : DevOpsAgent) : DevOpsAgent :=
  ops.foldl DevOpsOp.apply s

end DevOps

namespace Networking

/-- Device types (`departments::networking::DeviceType`). -/
inductive DeviceType where
  | Router | Switch | Firewall | LoadBalancer | Server | AccessPoint
deriving DecidableEq

/-- Device statuses (`departments::networking::DeviceStatus`). -/
inductive DeviceStatus where
  | Online | Offline | Degraded | Maintenance
deriving DecidableEq

/-- Security levels (`departments::networking::SecurityLevel`). -/
inductive SecurityLevel where
  | Public | DMZ | Internal | Restricted | Critical
deriving DecidableEq

/-- A network device (`departments::networking::NetworkDevice`); the IP
address is kept as its textual form. -/
structure NetworkDevice where
  id : String
  device_type : DeviceType
  ip_address : String
  mac_address : String
  status : DeviceStatus
  last_seen : Nat
deriving DecidableEq

/-- A network segment (`departments::networking::NetworkSegment`). -/
structure NetworkSegment where
  id : String
  name : String
  cidr : String
  security_level : SecurityLevel
  connected_segments : List String
  devices : List NetworkDevice
deriving DecidableEq

/-- A port range (`departments::networking::PortRange`); `u16` bounds. -/
structure PortRange where
  start : Nat
  stop : Nat
deriving DecidableEq

/-- Protocols (`departments::networking::Protocol`). -/
inductive Protocol where
  | TCP | UDP | ICMP | Any
deriving DecidableEq

/-- Firewall actions (`departments::networking::FirewallAction`). -/
inductive FirewallAction where
  | Allow | Deny | Log
deriving DecidableEq

/-- A firewall rule (`departments::networking::FirewallRule`). -/
structure FirewallRule where
  id : String
  name : String
  source_segment : String
  destination_segment : String
  port_range : PortRange
  protocol : Protocol
  action : FirewallAction
  enabled : Bool
deriving DecidableEq

/-- Load-balancing algorithms (`departments::networking::LoadBalancingAlgorithm`). -/
inductive LoadBalancingAlgorithm where
  | RoundRobin | LeastConnections | IPHash | WeightedRoundRobin
deriving DecidableEq

/-- A backend server of a load balancer (`departments::networking::BackendServer`). -/
structure BackendServer where
  ip_address : String
  port : Nat
  weight : Nat
  healthy : Bool
deriving DecidableEq

/-- Health-check types (`departments::networking::HealthCheckType`). -/
inductive HealthCheckType where
  | HTTP | TCP | ICMP
deriving DecidableEq

/-- A health-check policy (`departments::networking::HealthCheck`). -/
structure HealthCheck where
  check_type : HealthCheckType
  interval_seconds : Nat
  timeout_seconds : Nat
  healthy_threshold : Nat
  unhealthy_threshold : Nat
deriving DecidableEq

/-- Load-balancer statuses (`departments::networking::LoadBalancerStatus`). -/
inductive LoadBalancerStatus where
  | Active | Draining | Offline
deriving DecidableEq

/-- A load balancer (`departments::networking::LoadBalancer`). -/
structure LoadBalancer where
  id : String
  name : String
  algorithm : LoadBalancingAlgorithm
  backends : List BackendServer
  health_check : HealthCheck
  status : LoadBalancerStatus
deriving DecidableEq

/-- DNS record types (`departments::networking::RecordType`). -/
inductive RecordType where
  | A | AAAA | CNAME | MX | TXT | SRV
deriving DecidableEq

/-- A DNS record (`departments::networking::DNSRecord`); `ttl` is `u32`. -/
structure DNSRecord where
  record_type : RecordType
  value : String
  ttl : Nat
  proxied : Bool
deriving DecidableEq

/-- DNS configuration (`departments::networking::DNSConfig`). -/
structure DNSConfig where
  records : List (String × DNSRecord)
  name_servers : List String
  dnssec_enabled : Bool
  last_update : Nat
deriving DecidableEq

/-- VPN types (`departments::networking::VPNType`). -/
inductive VPNType where
  | IPSec | OpenVPN | WireGuard | SSLVPN
deriving DecidableEq

/-- VPN statuses (`departments::networking::VPNStatus`). -/
inductive VPNStatus where
  | Connected | Connecting | Disconnected | Failed
deriving DecidableEq

/-- A VPN configuration (`departments::networking::VPNConfig`). -/
structure VPNConfig where
  id : String
  name : String
  vpn_type : VPNType
  remote_endpoint : String
  local_networks : List String
  remote_networks : List String
  status : VPNStatus
deriving DecidableEq

/-- The network topology (`departments::networking::NetworkTopology`). -/
structure NetworkTopology where
  segments : List (String × NetworkSegment)
  firewall_rules : List FirewallRule
  load_balancers : List LoadBalancer
  dns_config : DNSConfig
  vpn_configs : List VPNConfig
deriving DecidableEq

/-- Service types (`departments::networking::ServiceType`). -/
inductive ServiceType where
  | WebServer | Database | Cache | MessageQueue | API | Monitoring
deriving DecidableEq

/-- Service statuses (`departments::networking::ServiceStatus`). -/
inductive ServiceStatus where
  | Healthy | Degraded | Unhealthy | Offline
deriving DecidableEq

/-- A registered network service (`departments::networking::NetworkService`). -/
structure NetworkService where
  name : String
  service_type : ServiceType
  endpoints : List String
  status : ServiceStatus
  last_health_check : Nat
deriving DecidableEq

/-- Bandwidth metrics per segment (`departments::networking::BandwidthMetrics`);
`u64` counters. -/
structure BandwidthMetrics where
  inbound_bps : Nat
  outbound_bps : Nat
  total_bytes : Nat
deriving DecidableEq

/-- Latency statistics (`departments::networking::LatencyStats`); `f32`
milliseconds. -/
structure LatencyStats where
  average_ms : ℚ
  min_ms : ℚ
  max_ms : ℚ
  p95_ms : ℚ
deriving DecidableEq

/-- Packet-loss statistics (`departments::networking::PacketLossStats`); the
percentage is `f32`, the counters `u64`. -/
structure PacketLossStats where
  percentage : ℚ
  total_packets : Nat
  lost_packets : Nat
deriving DecidableEq

/-- Connection counters (`departments::networking::ConnectionStats`). -/
structure ConnectionStats where
  active_connections : Nat
  total_connections : Nat
  peak_connections : Nat
deriving DecidableEq

/-- Network performance metrics (`departments::networking::NetworkMetrics`). -/
structure NetworkMetrics where
  bandwidth_usage : List (String × BandwidthMetrics)
  latency_stats : LatencyStats
  packet_loss : PacketLossStats
  connection_counts : ConnectionStats
  last_update : Nat
deriving DecidableEq

/-- The Networking agent state (`departments::networking::NetworkingAgent`). -/
structure NetworkingAgent where
  agent : Agent
  network_skill : Nat
  security_skill : Nat
  performance_skill : Nat
  network_topology : NetworkTopology
  network_services : List (String × NetworkService)
  performance_metrics : NetworkMetrics
deriving DecidableEq

/-- Networking errors (`departments::networking::NetworkingError`). -/
inductive NetworkingError where
  | ConfigurationError (msg : String)
  | DeviceNotFound (id : String)
  | ServiceUnavailable (msg : String)
  | DNSError (msg : String)
  | VPNError (msg : String)
deriving DecidableEq

/-- A segment-creation request (`departments::networking::SegmentConfig`). -/
structure SegmentConfig where
  name : String
  cidr : String
  security_level : SecurityLevel
deriving DecidableEq

/-- A firewall-rule request (`departments::networking::FirewallRuleConfig`). -/
structure FirewallRuleConfig where
  name : String
  source_segment : String
  destination_segment : String
  port_range : PortRange
  protocol : Protocol
  action : FirewallAction
deriving DecidableEq

/-- A service-registration request (`departments::networking::ServiceConfig`). -/
structure ServiceConfig where
  name : String
  service_type : ServiceType
  endpoints : List String
deriving DecidableEq

/-- Default topology (`impl Default for NetworkTopology`). -/
def NetworkTopology.default (now : Nat) : NetworkTopology where
  segments := []
  firewall_rules := []
  load_balancers := []
  dns_config :=
    { records := [], name_servers := ["8.8.8.8", "1.1.1.1"],
      dnssec_enabled := true, last_update := now }
  vpn_configs := []

/-- Default metrics (`impl Default for NetworkMetrics`). -/
def NetworkMetrics.default (now : Nat) : NetworkMetrics where
  bandwidth_usage := []
  latency_stats := { average_ms := 15, min_ms := 5, max_ms := 50, p95_ms := 25 }
  packet_loss := { percentage := 1 / 100, total_packets := 1000000,
                   lost_packets := 100 }
  connection_counts := { active_connections := 150, total_connections := 50000,
                         peak_connections := 200 }
  last_update := now

/-- Constructor `NetworkingAgent::new`; the freshly drawn agent id and
creation time are passed in. -/
def NetworkingAgent.new (id : Uuid) (now : Nat) (name : String)
    (manager_id : Option Uuid) : NetworkingAgent where
  agent := Agent.new id name .Networking manager_id
  network_skill := 90
  security_skill := 80
  performance_skill := 85
  network_topology := NetworkTopology.default now
  network_services := []
  performance_metrics := NetworkMetrics.default now

/-- Method `NetworkingAgent::configure_segment`: a fresh `seg-{uuid}` id is
drawn and the segment stored. -/
def configure_segment (env : Env) (s : NetworkingAgent) (config : SegmentConfig) :
    Except NetworkingError String × NetworkingAgent :=
  let segment_id := "seg-" ++ env.uuidStr 0
  let segment : NetworkSegment :=
    { id := segment_id, name := config.name, cidr := config.cidr,
      security_level := config.security_level, connected_segments := [],
      devices := [] }
  let topology := { s.network_topology with
    segments := hmInsert segment_id segment s.network_topology.segments }
  (.ok segment_id, { s with network_topology := topology })

/-- Method `NetworkingAgent::add_firewall_rule`: a fresh `fw-{uuid}` id is
drawn and the rule appended, enabled. -/
def add_firewall_rule (env : Env) (s : NetworkingAgent)
    (rule_config : FirewallRuleConfig) :
    Except NetworkingError String × NetworkingAgent :=
  let rule_id := "fw-" ++ env.uuidStr 0
  let rule : FirewallRule :=
    { id := rule_id, name := rule_config.name,
      source_segment := rule_config.source_segment,
      destination_segment := rule_config.destination_segment,
      port_range := rule_config.port_range, protocol := rule_config.protocol,
      action := rule_config.action, enabled := true }
  let topology := { s.network_topology with
    firewall_rules := s.network_topology.firewall_rules ++ [rule] }
  (.ok rule_id, { s with network_topology := topology })

/-- Loop of `NetworkingAgent::monitor_performance` over the cloned segment
map: each segment gets freshly sampled bandwidth metrics (two `f32` draws and
a `u64` draw per segment, indexed by loop position). -/
def monitorBandwidthGo (env : Env) : List (String × NetworkSegment) → Nat →
    List (String × BandwidthMetrics) → List (String × BandwidthMetrics)
  | [], _, usage => usage
  | (segment_name, _) :: rest, i, usage =>
    let metrics : BandwidthMetrics :=
      { inbound_bps := ⌊env.rand (2 * i) * 1000000⌋.toNat,
        outbound_bps := ⌊env.rand (2 * i + 1) * 1000000⌋.toNat,
        total_bytes := env.randNat i % 1000000000 }
    monitorBandwidthGo env rest (i + 1) (hmInsert segment_name metrics usage)

/-- Method `NetworkingAgent::monitor_performance`: bandwidth per segment and
latency/packet-loss snapshots are re-sampled; the call always succeeds. -/
def monitor_performance (env : Env) (s : NetworkingAgent) :
    Except NetworkingError Unit × NetworkingAgent :=
  let usage := monitorBandwidthGo env s.network_topology.segments 0
    s.performance_metrics.bandwidth_usage
  let n := s.network_topology.segments.length
  let latency : LatencyStats :=
    { average_ms := 15 + env.rand (2 * n) * 10,
      min_ms := 5 + env.rand (2 * n + 1) * 5,
      max_ms := 50 + env.rand (2 * n + 2) * 50,
      p95_ms := 25 + env.rand (2 * n + 3) * 15 }
  let loss : PacketLossStats :=
    { percentage := env.rand (2 * n + 4) * (1 / 10),
      total_packets := 1000000 + env.randNat n % 9000000,
      lost_packets := env.randNat (n + 1) % 1000 }
  let metrics := { s.performance_metrics with
    bandwidth_usage := usage
    latency_stats := latency
    packet_loss := loss
    last_update := env.nowTs }
  (.ok (), { s with performance_metrics := metrics })

/-- The advisory suggestion emitted for a load balancer with a low healthy
backend count. -/
def lbSuggestion (name : String) : String :=
  "Load balancer " ++ name ++ " has low healthy backend count"

/-- The advisory suggestion emitted for high average latency. -/
def latencySuggestion : String :=
  "High latency detected - consider CDN optimization"

/-- The advisory suggestion emitted for packet loss. -/
def packetLossSuggestion : String :=
  "Packet loss detected - investigate network issues"

/-- The fallback line emitted when no optimization is suggested. -/
def optimalLine : String := "Network performance is optimal"

/-- The latency check of `optimize_performance`: a suggestion when the
average latency exceeds 30ms. -/
def latencyOpt (s : NetworkingAgent) : List String :=
  if s.performance_metrics.latency_stats.average_ms > 30
  then [latencySuggestion] else []

/-- The packet-loss check of `optimize_performance`: a suggestion when the
loss percentage exceeds 0.05. -/
def packetOpt (s : NetworkingAgent) : List String :=
  if s.performance_metrics.packet_loss.percentage > 1 / 20
  then [packetLossSuggestion] else []

/-- The load-balancer check of `optimize_performance`: one suggestion per
load balancer whose healthy-backend count is below `backends.len() / 2`
(integer division). -/
def lbOpts (s : NetworkingAgent) : List String :=
  s.network_topology.load_balancers.filterMap (fun lb =>
    if lb.backends.countP (·.healthy) < lb.backends.length / 2
    then some (lbSuggestion lb.name) else none)

/-- Method `NetworkingAgent::optimize_performance`: the three fixed-threshold
checks in order; when nothing fires a single fallback line is returned. The
agent state is not modified. -/
def optimize_performance (s : NetworkingAgent) :
    Except NetworkingError (List String) × NetworkingAgent :=
  let optimizations := latencyOpt s ++ packetOpt s ++ lbOpts s
  if optimizations.isEmpty then (.ok [optimalLine], s)
  else (.ok optimizations, s)

/-- Method `NetworkingAgent::register_service`: the service is stored
`Healthy` under its name. -/
def register_service (env : Env) (s : NetworkingAgent)
    (service_config : ServiceConfig) :
    Except NetworkingError Unit × NetworkingAgent :=
  let service : NetworkService :=
    { name := service_config.name, service_type := service_config.service_type,
      endpoints := service_config.endpoints, status := .Healthy,
      last_health_check := env.nowTs }
  (.ok (),
   { s with network_services := hmInsert service_config.name service s.network_services })

/-- Message kinds the Networking `process_message` recognizes. -/
def recognizedKinds : List String :=
  ["configure_segment", "add_firewall_rule", "performance_monitor",
   "register_service"]

/-- Trait method `process_message` of `NetworkingAgent`: sequential dispatch
on the message-kind string; an unrecognized kind is only logged and accepted. -/
def process_message (env : Env) (s : NetworkingAgent) (msg : Message) :
    Except NetworkingError Unit × NetworkingAgent :=
  if msg.message_type = "configure_segment" then
    let config : SegmentConfig :=
      { name := (hmLookup "name" msg.metadata).getD "default",
        cidr := (hmLookup "cidr" msg.metadata).getD "10.0.0.0/24",
        security_level := .Internal }
    let r := configure_segment env s config
    (r.1.map (fun _ => ()), r.2)
  else if msg.message_type = "add_firewall_rule" then
    let rule_config : FirewallRuleConfig :=
      { name := (hmLookup "name" msg.metadata).getD "default-rule",
        source_segment := (hmLookup "source" msg.metadata).getD "any",
        destination_segment := (hmLookup "destination" msg.metadata).getD "any",
        port_range := { start := 80, stop := 443 }, protocol := .TCP,
        action := .Allow }
    let r := add_firewall_rule env s rule_config
    (r.1.map (fun _ => ()), r.2)
  else if msg.message_type = "performance_monitor" then
    let r1 := monitor_performance env s
    match r1.1 with
    | .error e => (.error e, r1.2)
    | .ok _ =>
      let r2 := optimize_performance r1.2
      (r2.1.map (fun _ => ()), r2.2)
  else if msg.message_type = "register_service" then
    let service_config : ServiceConfig :=
      { name := (hmLookup "name" msg.metadata).getD "unknown",
        service_type := .WebServer,
        endpoints := [(hmLookup "endpoint" msg.metadata).getD "localhost:8080"] }
    register_service env s service_config
  else
    (.ok (), s)

end Networking

namespace Main

/-- The simulation configuration (`main::SimulationConfig`): speed multiplier
(`f32`), autonomous flag, working-hours window (`u8` start and end hour) and
optional step budget (`u64`). -/
structure SimulationConfig where
  speed_multiplier : ℚ
  autonomous_mode : Bool
  working_hours : Nat × Nat
  max_steps : Option Nat
deriving DecidableEq

/-- The configuration built by `CompanySimulation::new`. -/
def SimulationConfig.default : SimulationConfig where
  speed_multiplier := 1
  autonomous_mode := true
  working_hours := (9, 18)
  max_steps := none

/-- The sleep between worked steps: `(60.0 / speed_multiplier) as u64`
(base one minute scaled by the multiplier, truncated). -/
def sleepSecs (speed : ℚ) : Nat := ⌊60 / speed⌋.toNat

/-- Outcome of one iteration of `CompanySimulation::run`. -/
inductive IterOutcome where
  | halted
  | skipped
  | worked
deriving DecidableEq

/-- The step-budget test in `CompanySimulation::run`: the (already
incremented) step counter has reached the configured maximum. -/
def budgetHit (max_steps : Option Nat) (sc : Nat) : Bool :=
  match max_steps with
  | some m => decide (sc ≥ m)
  | none => false

/-- One iteration of the `loop` in `CompanySimulation::run`, as a function of
the current UTC hour and the step counter. The counter is incremented at the
top of the iteration; then the step budget is checked (`break` when the
incremented counter reaches it); then the working-hours window is checked
(`continue` after a fixed 300-second sleep when the hour is before the start
hour or at/after the end hour); otherwise the simulation step runs and the
speed-scaled sleep follows. The result is the outcome, the new step counter
and the seconds slept. -/
def runIterate (cfg : SimulationConfig) (hour step_count : Nat) :
    IterOutcome × Nat × Option Nat :=
  let sc := step_count + 1
  if budgetHit cfg.max_steps sc then (.halted, sc, none)
  else if hour < cfg.working_hours.1 ∨ hour ≥ cfg.working_hours.2 then
    (.skipped, sc, some 300)
  else
    (.worked, sc, some (sleepSecs cfg.speed_multiplier))

end Main

/-! Concrete states and environments used to instantiate the theorems. -/

/-- An environment whose draws are all zero and whose parser rejects. -/
def envDefault : Env where
  freshUuid := fun _ => 0
  uuidStr := fun _ => "0"
  nowTs := 0
  parseUuid := fun _ => none
  rand := fun _ => 0
  randNat := fun _ => 0

/-- An environment whose `f32` draws are all one half. -/
def envHalf : Env := { envDefault with rand := fun _ => 1 / 2 }

/-- A message with an unrecognized kind and empty metadata. -/
def msgBogus : Message where
  id := 0
  from_agent := 0
  to_agent := 0
  message_type := "status_update"
  content := "Automated status update"
  priority := .Normal
  timestamp := 0
  metadata := []

/-- A `create_ticket` message whose metadata has neither title nor customer
id. -/
def msgCreate : Message := { msgBogus with
  message_type := "create_ticket"
  content := "Customer reports website loading slowly" }

namespace Ops

/-- A freshly created Ops agent. -/
def exAgent : OpsAgent := OpsAgent.new 42 "David Wilson" none

/-- An incident already in the terminal status `Closed`. -/
def exClosedIncident : Incident where
  id := 7
  title := "Database outage"
  description := "Primary database unreachable"
  severity := .Sev1
  status := .Closed
  affected_services := ["web-service"]
  root_cause := some "Disk failure"
  resolution := some "Replaced disk"
  created_at := 0
  resolved_at := some 100
  assigned_team := some "ops"

/-- An Ops agent holding one `Closed` incident. -/
def exTerminalAgent : OpsAgent := { exAgent with incidents := [(7, exClosedIncident)] }

/-- An update that reopens an incident. -/
def exReopen : IncidentUpdate where
  status := .Open
  root_cause := none
  resolution := none

/-- A change request already in the terminal status `Cancelled`. -/
def exCancelledChange : ChangeRequest where
  id := 11
  title := "Rotate TLS certificates"
  description := "Annual rotation"
  change_type := .Normal
  risk_level := .Low
  impact := "None expected"
  rollback_plan := "Restore previous certificates"
  scheduled_time := 0
  status := .Cancelled
  requester := 42
  approver := none

/-- An Ops agent holding one `Cancelled` change request. -/
def exChangeAgent : OpsAgent := { exAgent with change_queue := [exCancelledChange] }

end Ops

namespace InfoSec

/-- A freshly created InfoSec agent. -/
def exAgent : InfoSecAgent := InfoSecAgent.new 1 0 "Alex Thompson" none

/-- A completed scan with no findings. -/
def exEmptyScan : ScanResults where
  target := "test-system"
  scan_start := 0
  scan_end := 0
  vulnerabilities_found := 0
  vulnerabilities := []
  scan_status := .Completed

end InfoSec

namespace DevOps

/-- A freshly created DevOps agent. -/
def exAgent : DevOpsAgent := DevOpsAgent.new 2 0 "Jordan Smith" none

/-- A server at 85% cpu (above the 80% auto-scale threshold). -/
def srvHot : ServerStatus where
  id := "srv-a"
  hostname := "web-1"
  status := .Degraded
  cpu_usage := 85
  memory_usage := 50
  disk_usage := 40
  uptime := 3600
  last_check := 0

/-- A server at 40% cpu (below the 80% auto-scale threshold). -/
def srvCool : ServerStatus where
  id := "srv-b"
  hostname := "web-2"
  status := .Online
  cpu_usage := 40
  memory_usage := 30
  disk_usage := 20
  uptime := 3600
  last_check := 0

/-- A DevOps agent with one hot and one cool server. -/
def exScaleAgent : DevOpsAgent := { exAgent with
  infrastructure_state := { exAgent.infrastructure_state with
    servers := [("srv-a", srvHot), ("srv-b", srvCool)] } }

/-- A submitted deployment still `Pending` at step 0. -/
def exDeployment : Deployment where
  id := 5
  project_id := 9
  environment := "staging"
  status := .Pending
  start_time := 0
  steps := defaultSteps
  current_step := 0

/-- A DevOps agent holding one pending deployment. -/
def exDeployAgent : DevOpsAgent := { exAgent with
  active_deployments := [(5, exDeployment)] }

end DevOps

namespace Networking

/-- A healthy backend. -/
def backendUp (ip : String) : BackendServer where
  ip_address := ip
  port := 8080
  weight := 1
  healthy := true

/-- An unhealthy backend. -/
def backendDown (ip : String) : BackendServer where
  ip_address := ip
  port := 8080
  weight := 1
  healthy := false

/-- A load balancer with five backends of which two are healthy (40%). -/
def exLb : LoadBalancer where
  id := "lb-1"
  name := "web-lb"
  algorithm := .RoundRobin
  backends := [backendUp "10.0.0.1", backendUp "10.0.0.2",
               backendDown "10.0.0.3", backendDown "10.0.0.4",
               backendDown "10.0.0.5"]
  health_check :=
    { check_type := .HTTP, interval_seconds := 30, timeout_seconds := 5,
      healthy_threshold := 2, unhealthy_threshold := 2 }
  status := .Active

/-- A freshly created Networking agent. -/
def exAgent : NetworkingAgent := NetworkingAgent.new 3 0 "Lisa Park" none

/-- A Networking agent whose only load balancer has two of five backends
healthy, with default (quiet) latency and packet-loss metrics. -/
def exLbAgent : NetworkingAgent := { exAgent with
  network_topology := { exAgent.network_topology with load_balancers := [exLb] } }

end Networking

/-! Helper lemmas about the `HashMap` model. -/

theorem hmLookup_cons_self {α β : Type} [DecidableEq α] (k : α) (v : β)
    (m : List (α × β)) : hmLookup k ((k, v) :: m) = some v := by
  simp [hmLookup]

theorem hmModify_cons_self {α β : Type} [DecidableEq α] (k : α) (f : β → β)
    (v : β) (m : List (α × β)) :
    hmModify k f ((k, v) :: m) = (k, f v) :: m := by
  simp [hmModify]

theorem hmLookup_filter_other {α β : Type} [DecidableEq α] {k k' : α}
    (m : List (α × β)) (h : k ≠ k') :
    hmLookup k' (m.filter (fun p => !decide (p.1 = k))) = hmLookup k' m := by
  have h' : k' ≠ k := Ne.symm h
  induction m with
  | nil => rfl
  | cons p rest ih =>
    by_cases hp : p.1 = k
    · have hp' : ¬ p.1 = k' := by rw [hp]; exact h
      simp [List.filter_cons, hp, hmLookup, hp', ih, h]
    · by_cases hq : p.1 = k'
      · simp [List.filter_cons, hp, hmLookup, hq, h']
      · simp [List.filter_cons, hp, hmLookup, hq, ih]

theorem hmLookup_hmInsert_other {α β : Type} [DecidableEq α] {k k' : α}
    (v : β) (m : List (α × β)) (h : k ≠ k') :
    hmLookup k' (hmInsert k v m) = hmLookup k' m := by
  simp only [hmInsert, hmLookup, if_neg h]
  have : (fun (p : α × β) => if p.1 = k then false else true) =
      (fun p => !decide (p.1 = k)) := by
    funext p
    by_cases hp : p.1 = k <;> simp [hp]
  rw [this]
  exact hmLookup_filter_other m h

theorem hmLookup_hmModify_self {α β : Type} [DecidableEq α] {k : α} {v : β}
    (f : β → β) {m : List (α × β)} (h : hmLookup k m = some v) :
    hmLookup k (hmModify k f m) = some (f v) := by
  induction m with
  | nil => simp [hmLookup] at h
  | cons p rest ih =>
    by_cases hp : p.1 = k
    · simp [hmLookup, hp] at h
      simp [hmModify, hmLookup, hp, h]
    · simp [hmLookup, hp] at h
      simp [hmModify, hmLookup, hp, ih h]

namespace Ops

/-! Helper lemmas about the in-place change approval. -/

theorem approveInQueue_eq_none {cid a : Uuid} {q : List ChangeRequest}
    (h : ∀ c ∈ q, c.id ≠ cid) : approveInQueue cid a q = none := by
  induction q with
  | nil => rfl
  | cons c rest ih =>
    have hc : c.id ≠ cid := h c (List.mem_cons_self c rest)
    simp [approveInQueue, hc]
    exact ih (fun x hx => h x (List.mem_cons_of_mem c hx))

theorem approveInQueue_eq_some {cid a : Uuid} {q : List ChangeRequest}
    (h : ∃ c ∈ q, c.id = cid) :
    ∃ l c r, q = l ++ c :: r ∧ (∀ x ∈ l, x.id ≠ cid) ∧ c.id = cid ∧
      approveInQueue cid a q =
        some (l ++ { c with status := .Approved, approver := some a } :: r) := by
  induction q with
  | nil => simp at h
  | cons c rest ih =>
    by_cases hc : c.id = cid
    · exact ⟨[], c, rest, by simp, by simp, hc, by simp [approveInQueue, hc]⟩
    · have h' : ∃ x ∈ rest, x.id = cid := by
        rcases h with ⟨x, hx, hxid⟩
        rcases List.mem_cons.mp hx with rfl | hx'
        · exact absurd hxid hc
        · exact ⟨x, hx', hxid⟩
      rcases ih h' with ⟨l, c', r, hq, hl, hcid, heq⟩
      refine ⟨c :: l, c', r, by simp [hq], ?_, hcid, ?_⟩
      · intro x hx
        rcases List.mem_cons.mp hx with rfl | hx'
        · exact hc
        · exact hl x hx'
      · simp [approveInQueue, hc, heq]

/-- The status overwrite of `applyIncidentUpdate` survives the optional later
field updates. -/
theorem applyIncidentUpdate_status (env : Env) (upd : IncidentUpdate)
    (inc : Incident) : (applyIncidentUpdate env upd inc).status = upd.status := by
  cases hrc : upd.root_cause <;> cases hres : upd.resolution <;>
    simp [applyIncidentUpdate, hrc, hres]

end Ops

/-! Claims C1-C3. -/

/-- Claim C1 is false at a concrete input: an Ops incident already in the
terminal status `Closed` is moved back to `Open` by `update_incident` — a
terminal status is followed by a further status transition. -/
theorem C1_counterexample :
    (hmLookup 7 Ops.exTerminalAgent.incidents).map (·.status) = some .Closed ∧
    (hmLookup 7 (Ops.update_incident envDefault Ops.exTerminalAgent 7
        Ops.exReopen).2.incidents).map (·.status) = some .Open ∧
    Ops.IncidentStatus.Open ≠ Ops.IncidentStatus.Closed := by
  refine ⟨rfl, rfl, by decide⟩

/-- Claim C1 (amended): no terminal-status guard exists. `update_incident` on
an existing Ops incident always succeeds and overwrites its status with the
update's status — even from `Closed`/`Resolved` — and `approve_change` on an
existing change request always succeeds and sets the first matching queue
entry to `Approved` — even from `Completed`/`Cancelled`; ticket auto-closure
likewise moves `Resolved` (terminal) tickets to `Closed`. -/
theorem C1_terminal_not_guarded :
    (∀ (env : Env) (s : Ops.OpsAgent) (iid : Uuid) (inc : Ops.Incident)
       (upd : Ops.IncidentUpdate), hmLookup iid s.incidents = some inc →
       (Ops.update_incident env s iid upd).1 = .ok () ∧
       (hmLookup iid (Ops.update_incident env s iid upd).2.incidents).map
         (·.status) = some upd.status) ∧
    (∀ (s : Ops.OpsAgent) (cid approver : Uuid),
       (∃ c ∈ s.change_queue, c.id = cid) →
       (Ops.approve_change s cid approver).1 = .ok () ∧
       ∃ l c r, s.change_queue = l ++ c :: r ∧ (∀ x ∈ l, x.id ≠ cid) ∧
         c.id = cid ∧
         (Ops.approve_change s cid approver).2.change_queue =
           l ++ { c with status := .Approved, approver := some approver } :: r) := by
  constructor
  · intro env s iid inc upd h
    constructor
    · simp [Ops.update_incident, h]
    · simp only [Ops.update_incident, h]
      rw [hmLookup_hmModify_self _ h]
      simp [Ops.applyIncidentUpdate_status]
  · intro s cid approver h
    rcases Ops.approveInQueue_eq_some (a := approver) h with
      ⟨l, c, r, hq, hl, hcid, heq⟩
    constructor
    · simp [Ops.approve_change, heq]
    · exact ⟨l, c, r, hq, hl, hcid, by simp [Ops.approve_change, heq]⟩

/-- Claim C2 is false at a concrete input: with the default configuration
(working hours 9-18) and current hour 3, the iteration is skipped and the
fixed 300-second wait is taken, but the step counter advances from 0 to 1 —
the skipped iteration does advance the step count. -/
theorem C2_counterexample :
    Main.runIterate Main.SimulationConfig.default 3 0 = (.skipped, 1, some 300) ∧
    (1 : Nat) ≠ 0 := by
  refine ⟨rfl, by decide⟩

/-- Claim C2 (amended): whenever the current hour is outside the configured
working-hours window (and the step budget is not yet exhausted), the
iteration skips the simulation step and sleeps the fixed 300-second wait
before re-checking, but the step counter is incremented at the top of every
iteration, so the skipped iteration advances it by one. -/
theorem C2_skip_increments (cfg : Main.SimulationConfig) (hour sc : Nat)
    (hmax : ∀ m, cfg.max_steps = some m → sc + 1 < m)
    (hout : hour < cfg.working_hours.1 ∨ hour ≥ cfg.working_hours.2) :
    Main.runIterate cfg hour sc = (.skipped, sc + 1, some 300) := by
  have hb : Main.budgetHit cfg.max_steps (sc + 1) = false := by
    cases h : cfg.max_steps with
    | none => rfl
    | some m =>
      simp [Main.budgetHit]
      exact hmax m h
  simp [Main.runIterate, hb, hout]

/-- Witness for the amended C2 theorem at the default configuration, hour 3,
step counter 0. -/
theorem C2_skip_increments_witness :
    Main.runIterate Main.SimulationConfig.default 3 0 = (.skipped, 0 + 1, some 300) :=
  C2_skip_increments Main.SimulationConfig.default 3 0
    (fun m hm => by simp [Main.SimulationConfig.default] at hm)
    (Or.inl (by decide))

/-- Claim C3 identifies a code bug: with the three compliance draws all one
half, the sampled scores are 90, 92 and 95 — each in the documented ranges —
but their sum 277 exceeds 255, so the `u8` addition
`(gdpr + soc2 + iso) / 3` overflows: a release build wraps and reports an
overall compliance of 7 instead of the claimed integer average 92 (a debug
build panics on the same input, failing the repository's own
`test_compliance_audit`). -/
theorem C3_overall_average_overflows :
    (InfoSec.perform_compliance_audit envHalf InfoSec.exAgent).1.map
      (fun a => (a.gdpr_compliance, a.soc2_compliance, a.iso27001_compliance,
                 a.overall_compliance)) = .ok (90, 92, 95, 7) ∧
    (90 + 92 + 95) / 3 = 92 ∧ 255 < 90 + 92 + 95 ∧ (7 : Nat) ≠ 92 := by
  refine ⟨?_, by norm_num, by norm_num, by norm_num⟩
  have h1 : f32toU8 (envHalf.rand 0 * 20 + 80) = 90 := by
    simp [envHalf, envDefault, f32toU8]
    norm_num
    decide
  have h2 : f32toU8 (envHalf.rand 1 * 15 + 85) = 92 := by
    simp [envHalf, envDefault, f32toU8]
    norm_num
    decide
  have h3 : f32toU8 (envHalf.rand 2 * 10 + 90) = 95 := by
    simp [envHalf, envDefault, f32toU8]
    norm_num
    decide
  simp [InfoSec.perform_compliance_audit, h1, h2, h3, Except.map]

/-- Absorption of `i32` wrap-around on in-range values. -/
theorem i32wrap_eq_self {z : Int} (h1 : -2 ^ 31 ≤ z) (h2 : z < 2 ^ 31) :
    i32wrap z = z := by
  unfold i32wrap
  omega

/-- Arithmetic core of `update_security_posture`: when the penalty does not
overflow, the wrapped `u8` score is exactly `max 0 (100 − penalty)` and is at
most 100. -/
theorem u8ScoreSpec (c hi m : Nat) (h : 20 * c + 10 * hi + 5 * m < 2 ^ 31) :
    ((max (i32wrap (100 - toI32 (u32 (u32 (u32 (u32 c * 20) + u32 (u32 hi * 10)) +
        u32 (u32 m * 5))))) 0 % 256).toNat : Int)
      = max 0 (100 - (20 * (c : Int) + 10 * (hi : Int) + 5 * (m : Int))) ∧
    (max (i32wrap (100 - toI32 (u32 (u32 (u32 (u32 c * 20) + u32 (u32 hi * 10)) +
        u32 (u32 m * 5))))) 0 % 256).toNat ≤ 100 := by
  have e1 : u32 c = c := Nat.mod_eq_of_lt (by omega)
  have e2 : u32 hi = hi := Nat.mod_eq_of_lt (by omega)
  have e3 : u32 m = m := Nat.mod_eq_of_lt (by omega)
  rw [e1, e2, e3]
  have e4 : u32 (c * 20) = c * 20 := Nat.mod_eq_of_lt (by omega)
  have e5 : u32 (hi * 10) = hi * 10 := Nat.mod_eq_of_lt (by omega)
  have e6 : u32 (m * 5) = m * 5 := Nat.mod_eq_of_lt (by omega)
  rw [e4, e5, e6]
  have e7 : u32 (c * 20 + hi * 10) = c * 20 + hi * 10 := Nat.mod_eq_of_lt (by omega)
  rw [e7]
  have e8 : u32 (c * 20 + hi * 10 + m * 5) = c * 20 + hi * 10 + m * 5 :=
    Nat.mod_eq_of_lt (by omega)
  rw [e8]
  unfold toI32
  rw [Nat.mod_eq_of_lt (show c * 20 + hi * 10 + m * 5 < 2 ^ 32 by omega)]
  rw [if_pos (by omega : c * 20 + hi * 10 + m * 5 < 2 ^ 31)]
  rw [i32wrap_eq_self (by push_cast; omega) (by push_cast; omega)]
  have hXY : (100 : Int) - ((c * 20 + hi * 10 + m * 5 : Nat) : Int) =
      100 - (20 * (c : Int) + 10 * (hi : Int) + 5 * (m : Int)) := by
    push_cast
    ring
  have h0 : (0 : Int) ≤ max (100 - ((c * 20 + hi * 10 + m * 5 : Nat) : Int)) 0 :=
    le_max_right _ _
  have h100 : max ((100 : Int) - ((c * 20 + hi * 10 + m * 5 : Nat) : Int)) 0 ≤ 100 := by
    rw [Int.max_def]
    split_ifs <;> omega
  rw [Int.emod_eq_of_lt h0 (by omega)]
  constructor
  · rw [Int.toNat_of_nonneg h0, max_comm, hXY]
  · omega

/-- Claim C4: after a vulnerability scan whose finding counts keep the `u32`
penalty `20·critical + 10·high + 5·medium` below `2^31` (no overflow — true
of every scan the program performs, which produces exactly one finding), the
posture's `overall_score` equals `max 0 (100 − penalty)` computed from that
scan's findings and lies in `[0, 100]`; in particular every actual scan (a
single `Medium` finding) leaves the score at 95. -/
theorem C4_posture_score :
    (∀ (env : Env) (s : InfoSec.InfoSecAgent) (scan : InfoSec.ScanResults),
       20 * scan.vulnerabilities.countP (fun v => v.severity = .Critical) +
       10 * scan.vulnerabilities.countP (fun v => v.severity = .High) +
       5 * scan.vulnerabilities.countP (fun v => v.severity = .Medium) < 2 ^ 31 →
       (((InfoSec.update_security_posture env s scan).2.security_posture.overall_score : Int) =
          max 0 (100 -
            (20 * (scan.vulnerabilities.countP (fun v => v.severity = .Critical) : Int) +
             10 * (scan.vulnerabilities.countP (fun v => v.severity = .High) : Int) +
             5 * (scan.vulnerabilities.countP (fun v => v.severity = .Medium) : Int))) ∧
        (InfoSec.update_security_posture env s scan).2.security_posture.overall_score ≤ 100)) ∧
    (∀ (env : Env) (s : InfoSec.InfoSecAgent) (target : String),
       (InfoSec.perform_vulnerability_scan env s target).2.security_posture.overall_score = 95) := by
  constructor
  · intro env s scan h
    simp only [InfoSec.update_security_posture, InfoSec.vulnPenalty]
    exact u8ScoreSpec _ _ _ h
  · intro env s target
    simp [InfoSec.perform_vulnerability_scan, InfoSec.update_security_posture,
      InfoSec.vulnPenalty, u32, toI32, i32wrap]

/-- Claim C5: for every department variant and every message whose kind
string is not in that variant's recognized set, `process_message` returns
`Ok` — an unrecognized kind is accepted (only logged), never an error. -/
theorem C5_unrecognized_kind_ok :
    (∀ (env : Env) (s : DevOps.DevOpsAgent) (msg : Message),
       msg.message_type ∉ DevOps.recognizedKinds →
       (DevOps.process_message env s msg).1 = .ok ()) ∧
    (∀ (env : Env) (s : InfoSec.InfoSecAgent) (msg : Message),
       msg.message_type ∉ InfoSec.recognizedKinds →
       (InfoSec.process_message env s msg).1 = .ok ()) ∧
    (∀ (env : Env) (s : Networking.NetworkingAgent) (msg : Message),
       msg.message_type ∉ Networking.recognizedKinds →
       (Networking.process_message env s msg).1 = .ok ()) ∧
    (∀ (env : Env) (s : Ops.OpsAgent) (msg : Message),
       msg.message_type ∉ Ops.recognizedKinds →
       (Ops.process_message env s msg).1 = .ok ()) := by
  refine ⟨?_, ?_, ?_, ?_⟩
  · intro env s msg h
    simp only [DevOps.recognizedKinds, List.mem_cons, List.not_mem_nil,
      or_false, not_or] at h
    obtain ⟨h1, h2, h3, h4⟩ := h
    simp [DevOps.process_message, h1, h2, h3, h4]
  · intro env s msg h
    simp only [InfoSec.recognizedKinds, List.mem_cons, List.not_mem_nil,
      or_false, not_or] at h
    obtain ⟨h1, h2, h3, h4, h5⟩ := h
    simp [InfoSec.process_message, h1, h2, h3, h4, h5]
  · intro env s msg h
    simp only [Networking.recognizedKinds, List.mem_cons, List.not_mem_nil,
      or_false, not_or] at h
    obtain ⟨h1, h2, h3, h4⟩ := h
    simp [Networking.process_message, h1, h2, h3, h4]
  · intro env s msg h
    simp only [Ops.recognizedKinds, List.mem_cons, List.not_mem_nil,
      or_false, not_or] at h
    obtain ⟨h1, h2, h3, h4, h5⟩ := h
    simp [Ops.process_message, h1, h2, h3, h4, h5]

/-- Claim C6: an Ops `create_ticket` message whose metadata has neither a
title nor a customer id yields a stored ticket with status `InProgress`,
assigned to the handling agent itself, titled `"Support Request"`, with
priority `Normal` and no customer id. -/
theorem C6_create_ticket_defaults (env : Env) (s : Ops.OpsAgent) (msg : Message)
    (hk : msg.message_type = "create_ticket")
    (ht : hmLookup "title" msg.metadata = none)
    (hc : hmLookup "customer_id" msg.metadata = none) :
    (Ops.process_message env s msg).1 = .ok () ∧
    (hmLookup (env.freshUuid 0)
        (Ops.process_message env s msg).2.support_tickets).map
      (fun t => (t.status, t.assigned_to, t.title, t.priority, t.customer_id)) =
      some (.InProgress, some s.agent.id, "Support Request", .Normal, none) := by
  constructor
  · simp [Ops.process_message, hk, Ops.create_ticket, Ops.assign_ticket, Except.map]
  · simp [Ops.process_message, hk, Ops.create_ticket, Ops.assign_ticket,
      hmInsert, hmModify_cons_self, hmLookup_cons_self, ht, hc]

/-- Witness for the C6 theorem: a fresh Ops agent handling a bare
`create_ticket` message. -/
theorem C6_create_ticket_defaults_witness :
    (Ops.process_message envDefault Ops.exAgent msgCreate).1 = .ok () ∧
    (hmLookup (envDefault.freshUuid 0)
        (Ops.process_message envDefault Ops.exAgent msgCreate).2.support_tickets).map
      (fun t => (t.status, t.assigned_to, t.title, t.priority, t.customer_id)) =
      some (.InProgress, some Ops.exAgent.agent.id, "Support Request", .Normal, none) :=
  C6_create_ticket_defaults envDefault Ops.exAgent msgCreate rfl rfl rfl

/-- Claim C7: `approve_change` on an id present in the change queue succeeds
and sets the first matching change's status to `Approved` and its approver to
the given id (all other entries unchanged); on an id not present it returns
`ChangeNotFound` and leaves the state — in particular the queue — completely
unchanged. -/
theorem C7_approve_change (s : Ops.OpsAgent) (cid approver : Uuid) :
    ((∃ c ∈ s.change_queue, c.id = cid) →
      (Ops.approve_change s cid approver).1 = .ok () ∧
      ∃ l c r, s.change_queue = l ++ c :: r ∧ (∀ x ∈ l, x.id ≠ cid) ∧
        c.id = cid ∧
        (Ops.approve_change s cid approver).2.change_queue =
          l ++ { c with status := .Approved, approver := some approver } :: r) ∧
    ((∀ c ∈ s.change_queue, c.id ≠ cid) →
      Ops.approve_change s cid approver = (.error (.ChangeNotFound cid), s)) := by
  constructor
  · intro h
    rcases Ops.approveInQueue_eq_some (a := approver) h with ⟨l, c, r, hq, hl, hcid, heq⟩
    refine ⟨by simp [Ops.approve_change, heq], l, c, r, hq, hl, hcid, ?_⟩
    simp [Ops.approve_change, heq]
  · intro h
    have hnone := Ops.approveInQueue_eq_none (a := approver) h
    simp [Ops.approve_change, hnone]

/-- Witness for the C7 theorem: approving the queued change 11 succeeds, and
approving the absent id 999 fails with `ChangeNotFound` leaving the agent
unchanged. -/
theorem C7_approve_change_witness :
    (Ops.approve_change Ops.exChangeAgent 11 99).1 = .ok () ∧
    Ops.approve_change Ops.exChangeAgent 999 99 =
      (.error (.ChangeNotFound 999), Ops.exChangeAgent) :=
  ⟨((C7_approve_change Ops.exChangeAgent 11 99).1
      ⟨Ops.exCancelledChange, by simp [Ops.exChangeAgent], rfl⟩).1,
   (C7_approve_change Ops.exChangeAgent 999 99).2
      (by intro c hcm; simp [Ops.exChangeAgent] at hcm; subst hcm; decide)⟩

/-- Insertion of a key absent from the map is a plain prepend. -/
theorem hmInsert_fresh_cons {α β : Type} [DecidableEq α] (k : α) (v : β)
    {m : List (α × β)} (h : ∀ p ∈ m, p.1 ≠ k) : hmInsert k v m = (k, v) :: m := by
  unfold hmInsert
  congr 1
  apply List.filter_eq_self.mpr
  intro p hp
  simp [h p hp]

namespace DevOps

/-- The auto-scale loop records exactly one action per breaching server of
the snapshot. -/
theorem autoScaleGo_actions (env : Env)
    (snap : List (String × ServerStatus)) :
    ∀ (k : Nat) (acts : List String) (s : DevOpsAgent),
      (autoScaleGo env snap k acts s).1.length =
        acts.length + snap.countP (fun p => decide (breach p.2)) := by
  induction snap with
  | nil =>
    intro k acts s
    simp [autoScaleGo]
  | cons q rest ih =>
    obtain ⟨qid, qsrv⟩ := q
    intro k acts s
    by_cases hb : breach qsrv
    · simp [autoScaleGo, hb, provision_server, ih, List.countP_cons]
      omega
    · simp [autoScaleGo, hb, ih, List.countP_cons]

/-- The auto-scale loop grows the server map by exactly one entry per
breaching server of the snapshot, as long as the drawn server keys are fresh
and pairwise distinct. -/
theorem autoScaleGo_servers_length (env : Env)
    (snap : List (String × ServerStatus)) :
    ∀ (k : Nat) (acts : List String) (s : DevOpsAgent),
      (∀ j, k ≤ j → j < k + snap.length →
        ∀ p ∈ s.infrastructure_state.servers, p.1 ≠ "srv-" ++ env.uuidStr j) →
      (∀ i j, k ≤ i → i < j → j < k + snap.length →
        ("srv-" ++ env.uuidStr i : String) ≠ "srv-" ++ env.uuidStr j) →
      (autoScaleGo env snap k acts s).2.infrastructure_state.servers.length =
        s.infrastructure_state.servers.length +
          snap.countP (fun p => decide (breach p.2)) := by
  induction snap with
  | nil =>
    intro k acts s _ _
    simp [autoScaleGo]
  | cons q rest ih =>
    obtain ⟨qid, qsrv⟩ := q
    intro k acts s hfresh hinj
    by_cases hb : breach qsrv
    · have hfk : ∀ p ∈ s.infrastructure_state.servers,
          p.1 ≠ "srv-" ++ env.uuidStr k := by
        intro p hp
        exact hfresh k (le_refl k) (by simp) p hp
      have hnext := ih (k + 1) (acts ++ ["Scaled up: added server " ++
          (qsrv.hostname ++ "-scale-" ++ toString env.nowTs)])
        ((provision_server env k s
          { hostname := qsrv.hostname ++ "-scale-" ++ toString env.nowTs,
            cpu_cores := 4, memory_gb := 8, disk_gb := 100 }).2)
        (by
          intro j hj1 hj2 p hp
          simp only [provision_server, hmInsert_fresh_cons _ _ hfk] at hp
          rcases List.mem_cons.mp hp with rfl | hp'
          · exact hinj k j (le_refl k) (by omega) (by simp; omega)
          · exact hfresh j (by omega) (by simp; omega) p hp')
        (by
          intro i j hi hij hj
          exact hinj i j (by omega) hij (by simp at hj ⊢; omega))
      simp only [autoScaleGo, hb, if_pos, provision_server] at hnext ⊢
      rw [hnext]
      simp only [provision_server, hmInsert_fresh_cons _ _ hfk]
      simp [List.countP_cons, hb]
      omega
    · have hrec := ih k acts s
        (fun j hj1 hj2 p hp => hfresh j hj1
          (by simp only [List.length_cons]; omega) p hp)
        (fun i j hi hij hj => hinj i j hi hij
          (by simp only [List.length_cons]; omega))
      simp [autoScaleGo, hb, List.countP_cons, hrec]

/-- Every entry of the server map after auto-scaling either was already
present or is a scaled-up copy of a breaching server of the snapshot. -/
theorem autoScaleGo_mem (env : Env)
    (snap : List (String × ServerStatus)) :
    ∀ (k : Nat) (acts : List String) (s : DevOpsAgent)
      (p : String × ServerStatus),
      p ∈ (autoScaleGo env snap k acts s).2.infrastructure_state.servers →
      p ∈ s.infrastructure_state.servers ∨
      ∃ q ∈ snap, breach q.2 ∧
        p.2.hostname = q.2.hostname ++ "-scale-" ++ toString env.nowTs := by
  induction snap with
  | nil =>
    intro k acts s p hp
    left
    simpa [autoScaleGo] using hp
  | cons q rest ih =>
    obtain ⟨qid, qsrv⟩ := q
    intro k acts s p hp
    by_cases hb : breach qsrv
    · simp only [autoScaleGo, hb, if_pos, provision_server] at hp
      rcases ih _ _ _ _ hp with h1 | ⟨q', hq', hbq', hh⟩
      · simp only [hmInsert] at h1
        rcases List.mem_cons.mp h1 with rfl | h1'
        · right
          exact ⟨(qid, qsrv), List.mem_cons_self _ _, hb, rfl⟩
        · left
          exact List.mem_of_mem_filter h1'
      · right
        exact ⟨q', List.mem_cons_of_mem _ hq', hbq', hh⟩
    · simp only [autoScaleGo, hb, if_neg] at hp
      rcases ih _ _ _ _ hp with h1 | ⟨q', hq', hbq', hh⟩
      · exact Or.inl h1
      · exact Or.inr ⟨q', List.mem_cons_of_mem _ hq', hbq', hh⟩

end DevOps

/-- Claim C8: `auto_scale` provisions exactly one additional server per
existing server whose cpu or memory usage exceeds 80% and none for the
others: the recorded actions number exactly the breaching servers; under
fresh pairwise-distinct drawn server ids the server map grows by exactly that
count; every post-state server either pre-existed or is a scaled-up copy of a
breaching server whose hostname contains `-scale-`; and in the concrete
scenario of one server at 85% cpu and one at 40% cpu exactly one new server
is provisioned. -/
theorem C8_auto_scale :
    (∀ (env : Env) (s : DevOps.DevOpsAgent),
       (DevOps.auto_scale env s).1.map List.length =
         .ok (s.infrastructure_state.servers.countP
           (fun p => decide (DevOps.breach p.2)))) ∧
    (∀ (env : Env) (s : DevOps.DevOpsAgent),
       (∀ j, j < s.infrastructure_state.servers.length →
         ∀ p ∈ s.infrastructure_state.servers, p.1 ≠ "srv-" ++ env.uuidStr j) →
       (∀ i j, i < j → j < s.infrastructure_state.servers.length →
         ("srv-" ++ env.uuidStr i : String) ≠ "srv-" ++ env.uuidStr j) →
       (DevOps.auto_scale env s).2.infrastructure_state.servers.length =
         s.infrastructure_state.servers.length +
           s.infrastructure_state.servers.countP
             (fun p => decide (DevOps.breach p.2))) ∧
    (∀ (env : Env) (s : DevOps.DevOpsAgent) (p : String × DevOps.ServerStatus),
       p ∈ (DevOps.auto_scale env s).2.infrastructure_state.servers →
       p ∈ s.infrastructure_state.servers ∨
       ∃ q ∈ s.infrastructure_state.servers, DevOps.breach q.2 ∧
         p.2.hostname = q.2.hostname ++ "-scale-" ++ toString env.nowTs ∧
         List.IsInfix "-scale-".data p.2.hostname.data) ∧
    ((DevOps.auto_scale envDefault
        DevOps.exScaleAgent).2.infrastructure_state.servers.length = 3 ∧
     (DevOps.auto_scale envDefault DevOps.exScaleAgent).1 =
       .ok ["Scaled up: added server web-1-scale-0"]) := by
  refine ⟨?_, ?_, ?_, ?_, ?_⟩
  · intro env s
    simp [DevOps.auto_scale, Except.map, DevOps.autoScaleGo_actions]
  · intro env s hfresh hinj
    exact DevOps.autoScaleGo_servers_length env _ 0 [] s
      (fun j _ hj2 p hp => hfresh j (by omega) p hp)
      (fun i j hi hij hj => hinj i j hij (by omega))
  · intro env s p hp
    rcases DevOps.autoScaleGo_mem env _ 0 [] s p hp with h1 | ⟨q, hq, hbq, hh⟩
    · exact Or.inl h1
    · refine Or.inr ⟨q, hq, hbq, hh, ?_⟩
      refine ⟨q.2.hostname.data, (toString env.nowTs).data, ?_⟩
      rw [hh]
      simp [String.data_append]
  · decide
  · rfl

namespace Networking

/-! Helper lemmas discriminating the advisory suggestion strings. -/

theorem data_lbPrefix : "Load balancer ".data =
    ['L', 'o', 'a', 'd', ' ', 'b', 'a', 'l', 'a', 'n', 'c', 'e', 'r', ' '] := rfl

theorem lbSuggestion_ne_latency (name : String) :
    lbSuggestion name ≠ latencySuggestion := by
  intro h
  have h2 := congrArg String.data h
  simp only [lbSuggestion, String.data_append, data_lbPrefix] at h2
  simp [latencySuggestion] at h2

theorem lbSuggestion_ne_packet (name : String) :
    lbSuggestion name ≠ packetLossSuggestion := by
  intro h
  have h2 := congrArg String.data h
  simp only [lbSuggestion, String.data_append, data_lbPrefix] at h2
  simp [packetLossSuggestion] at h2

theorem lbSuggestion_ne_optimal (name : String) :
    lbSuggestion name ≠ optimalLine := by
  intro h
  have h2 := congrArg String.data h
  simp only [lbSuggestion, String.data_append, data_lbPrefix] at h2
  simp [optimalLine] at h2

theorem lbSuggestion_inj {a b : String} :
    lbSuggestion a = lbSuggestion b ↔ a = b := by
  constructor
  · intro h
    have h2 := congrArg String.data h
    simp only [lbSuggestion, String.data_append] at h2
    rw [List.append_assoc, List.append_assoc] at h2
    have h3 := List.append_cancel_left h2
    have h4 := List.append_cancel_right h3
    exact congrArg String.mk h4
  · intro h
    rw [h]

/-- Membership in the returned suggestion list coincides with membership in
the three threshold lists, for any string other than the fallback line. -/
theorem mem_optimize_iff (a : NetworkingAgent) (x : String)
    (hx : x ≠ optimalLine) :
    (x ∈ (optimize_performance a).1.toOption.getD [] ↔
      x ∈ latencyOpt a ++ packetOpt a ++ lbOpts a) := by
  simp only [optimize_performance]
  by_cases he : (latencyOpt a ++ packetOpt a ++ lbOpts a).isEmpty
  · rw [if_pos he]
    rw [List.isEmpty_iff] at he
    simp [he, hx, Except.toOption]
  · rw [if_neg he]
    simp [Except.toOption]

theorem mem_latencyOpt (a : NetworkingAgent) :
    latencySuggestion ∈ latencyOpt a ↔
      a.performance_metrics.latency_stats.average_ms > 30 := by
  unfold latencyOpt
  split_ifs with h <;> simp [h]

theorem mem_packetOpt (a : NetworkingAgent) :
    packetLossSuggestion ∈ packetOpt a ↔
      a.performance_metrics.packet_loss.percentage > 1 / 20 := by
  unfold packetOpt
  split_ifs with h
  · simp only [List.mem_singleton]
    exact iff_of_true trivial h
  · exact iff_of_false (List.not_mem_nil _) h

theorem lbSuggestion_not_mem_latencyOpt (a : NetworkingAgent) (name : String) :
    lbSuggestion name ∉ latencyOpt a := by
  unfold latencyOpt
  split_ifs <;> simp [lbSuggestion_ne_latency]

theorem lbSuggestion_not_mem_packetOpt (a : NetworkingAgent) (name : String) :
    lbSuggestion name ∉ packetOpt a := by
  unfold packetOpt
  split_ifs <;> simp [lbSuggestion_ne_packet]

theorem latency_not_mem_packetOpt (a : NetworkingAgent) :
    latencySuggestion ∉ packetOpt a := by
  unfold packetOpt
  split_ifs
  · simp only [List.mem_singleton]
    decide
  · exact List.not_mem_nil _

theorem packet_not_mem_latencyOpt (a : NetworkingAgent) :
    packetLossSuggestion ∉ latencyOpt a := by
  unfold latencyOpt
  split_ifs
  · simp only [List.mem_singleton]
    decide
  · exact List.not_mem_nil _

theorem mem_lbOpts (a : NetworkingAgent) (name : String) :
    lbSuggestion name ∈ lbOpts a ↔
      ∃ lb ∈ a.network_topology.load_balancers, lb.name = name ∧
        lb.backends.countP (·.healthy) < lb.backends.length / 2 := by
  unfold lbOpts
  rw [List.mem_filterMap]
  constructor
  · rintro ⟨lb, hlb, hf⟩
    by_cases hc : lb.backends.countP (·.healthy) < lb.backends.length / 2
    · rw [if_pos hc] at hf
      exact ⟨lb, hlb, lbSuggestion_inj.mp (Option.some.inj hf), hc⟩
    · rw [if_neg hc] at hf
      simp at hf
  · rintro ⟨lb, hlb, hname, hc⟩
    exact ⟨lb, hlb, by rw [if_pos hc, hname]⟩

theorem latency_not_mem_lbOpts (a : NetworkingAgent) :
    latencySuggestion ∉ lbOpts a := by
  unfold lbOpts
  rw [List.mem_filterMap]
  rintro ⟨lb, hlb, hf⟩
  split_ifs at hf with hc
  exact lbSuggestion_ne_latency lb.name (Option.some.inj hf)

theorem packet_not_mem_lbOpts (a : NetworkingAgent) :
    packetLossSuggestion ∉ lbOpts a := by
  unfold lbOpts
  rw [List.mem_filterMap]
  rintro ⟨lb, hlb, hf⟩
  split_ifs at hf with hc
  exact lbSuggestion_ne_packet lb.name (Option.some.inj hf)

end Networking

/-- Claim C9 is false at a concrete input: a load balancer with two of five
backends healthy (40%, fewer than half) receives no advisory suggestion —
`optimize_performance` returns only the fallback line, because the code
compares against the integer division `backends.len() / 2 = 2` and
`2 < 2` fails. -/
theorem C9_counterexample :
    Networking.exLb ∈ Networking.exLbAgent.network_topology.load_balancers ∧
    2 * Networking.exLb.backends.countP (·.healthy) <
      Networking.exLb.backends.length ∧
    (Networking.optimize_performance Networking.exLbAgent).1 =
      .ok [Networking.optimalLine] ∧
    Networking.lbSuggestion Networking.exLb.name ∉
      (Networking.optimize_performance Networking.exLbAgent).1.toOption.getD [] := by
  have hlat : ¬ (Networking.exLbAgent.performance_metrics.latency_stats.average_ms > 30) := by
    show ¬ ((15 : ℚ) > 30)
    norm_num
  have hpkt : ¬ (Networking.exLbAgent.performance_metrics.packet_loss.percentage > 1 / 20) := by
    show ¬ ((1 / 100 : ℚ) > 1 / 20)
    norm_num
  have hlb : Networking.lbOpts Networking.exLbAgent = [] := rfl
  have hlatOpt : Networking.latencyOpt Networking.exLbAgent = [] := by
    unfold Networking.latencyOpt
    rw [if_neg hlat]
  have hpktOpt : Networking.packetOpt Networking.exLbAgent = [] := by
    unfold Networking.packetOpt
    rw [if_neg hpkt]
  have hres : (Networking.optimize_performance Networking.exLbAgent).1 =
      .ok [Networking.optimalLine] := by
    simp [Networking.optimize_performance, hlatOpt, hpktOpt, hlb]
  refine ⟨by decide, by decide, hres, ?_⟩
  rw [hres]
  simp [Except.toOption, Networking.lbSuggestion_ne_optimal]

/-- Claim C9 (amended): `optimize_performance` emits the advisory suggestion
for a load balancer exactly when its healthy-backend count is strictly below
`backends.len() / 2` in integer division (below half rounded down, not below
50%), the latency suggestion exactly when the average latency exceeds 30ms,
and the packet-loss suggestion exactly when the loss percentage exceeds
0.05. -/
theorem C9_optimize_thresholds (a : Networking.NetworkingAgent) (name : String) :
    (Networking.lbSuggestion name ∈
        (Networking.optimize_performance a).1.toOption.getD [] ↔
      ∃ lb ∈ a.network_topology.load_balancers, lb.name = name ∧
        lb.backends.countP (·.healthy) < lb.backends.length / 2) ∧
    (Networking.latencySuggestion ∈
        (Networking.optimize_performance a).1.toOption.getD [] ↔
      a.performance_metrics.latency_stats.average_ms > 30) ∧
    (Networking.packetLossSuggestion ∈
        (Networking.optimize_performance a).1.toOption.getD [] ↔
      a.performance_metrics.packet_loss.percentage > 1 / 20) := by
  refine ⟨?_, ?_, ?_⟩
  · rw [Networking.mem_optimize_iff a _ (Networking.lbSuggestion_ne_optimal name)]
    simp only [List.mem_append]
    rw [Networking.mem_lbOpts]
    constructor
    · rintro ((h | h) | h)
      · exact absurd h (Networking.lbSuggestion_not_mem_latencyOpt a name)
      · exact absurd h (Networking.lbSuggestion_not_mem_packetOpt a name)
      · exact h
    · intro h
      exact Or.inr h
  · rw [Networking.mem_optimize_iff a _ (by decide)]
    simp only [List.mem_append]
    rw [Networking.mem_latencyOpt]
    constructor
    · rintro ((h | h) | h)
      · exact h
      · exact absurd h (Networking.latency_not_mem_packetOpt a)
      · exact absurd h (Networking.latency_not_mem_lbOpts a)
    · intro h
      exact Or.inl (Or.inl h)
  · rw [Networking.mem_optimize_iff a _ (by decide)]
    simp only [List.mem_append]
    rw [Networking.mem_packetOpt]
    constructor
    · rintro ((h | h) | h)
      · exact absurd h (Networking.packet_not_mem_latencyOpt a)
      · exact h
      · exact absurd h (Networking.packet_not_mem_lbOpts a)
    · intro h
      exact Or.inl (Or.inr h)

namespace DevOps

/-! Helper lemmas: no DevOps operation but `deploy_application` touches the
deployment map, and `deploy_application` only inserts a fresh key. -/

theorem provision_server_deployments (env : Env) (k : Nat) (s : DevOpsAgent)
    (cfg : ServerConfig) :
    (provision_server env k s cfg).2.active_deployments = s.active_deployments := rfl

theorem check_server_health_deployments (env : Env) (i : Nat) (s : DevOpsAgent)
    (server_id : String) :
    (check_server_health env i s server_id).2.active_deployments =
      s.active_deployments := by
  unfold check_server_health
  cases hmLookup server_id s.infrastructure_state.servers <;> rfl

theorem healthCheckGo_deployments (env : Env) (keys : List String) :
    ∀ (i : Nat) (s : DevOpsAgent),
      (healthCheckGo env keys i s).2.active_deployments = s.active_deployments := by
  induction keys with
  | nil =>
    intro i s
    rfl
  | cons key rest ih =>
    intro i s
    unfold healthCheckGo
    cases hr : (check_server_health env i s key).1 with
    | error e =>
      simp only [hr]
      exact check_server_health_deployments env i s key
    | ok u =>
      simp only [hr]
      rw [ih]
      exact check_server_health_deployments env i s key

theorem autoScaleGo_deployments (env : Env)
    (snap : List (String × ServerStatus)) :
    ∀ (k : Nat) (acts : List String) (s : DevOpsAgent),
      (autoScaleGo env snap k acts s).2.active_deployments =
        s.active_deployments := by
  induction snap with
  | nil =>
    intro k acts s
    rfl
  | cons q rest ih =>
    obtain ⟨qid, qsrv⟩ := q
    intro k acts s
    by_cases hb : breach qsrv
    · simp only [autoScaleGo, hb, if_pos, provision_server]
      rw [ih]
    · simp [autoScaleGo, hb, ih]

theorem perform_backup_deployments (env : Env) (s : DevOpsAgent) :
    (perform_backup env s).2.active_deployments = s.active_deployments := rfl

theorem deploy_application_deployments (env : Env) (s : DevOpsAgent)
    (cfg : DeploymentConfig) {did : Uuid} {d : Deployment}
    (hfresh : env.freshUuid 0 ≠ did)
    (h : hmLookup did s.active_deployments = some d) :
    hmLookup did (deploy_application env s cfg).2.active_deployments = some d := by
  simp only [deploy_application]
  rw [hmLookup_hmInsert_other _ _ hfresh]
  exact h

theorem process_message_deployments (env : Env) (s : DevOpsAgent)
    (msg : Message) {did : Uuid} {d : Deployment}
    (hfresh : ∀ k, env.freshUuid k ≠ did)
    (h : hmLookup did s.active_deployments = some d) :
    hmLookup did (process_message env s msg).2.active_deployments = some d := by
  unfold process_message
  split_ifs with h1 h2 h3 h4
  · cases hm : hmLookup "project_id" msg.metadata with
    | none => simpa [hm] using h
    | some pid =>
      cases hp : env.parseUuid pid with
      | none => simpa [hm, hp] using h
      | some pu =>
        simp only [hm, hp]
        exact deploy_application_deployments env s _ (hfresh 0) h
  · rw [healthCheckGo_deployments]
    exact h
  · simp only [auto_scale]
    rw [autoScaleGo_deployments]
    exact h
  · rw [perform_backup_deployments]
    exact h
  · exact h

theorem perform_daily_tasks_deployments (e1 e2 e3 : Env) (s : DevOpsAgent)
    {did : Uuid} {d : Deployment}
    (hf1 : ∀ k, e1.freshUuid k ≠ did) (hf2 : ∀ k, e2.freshUuid k ≠ did)
    (hf3 : ∀ k, e3.freshUuid k ≠ did)
    (h : hmLookup did s.active_deployments = some d) :
    hmLookup did (perform_daily_tasks e1 e2 e3 s).2.active_deployments = some d := by
  unfold perform_daily_tasks
  have p1 := process_message_deployments e1 s
    (dailyMsg e1 s.agent.id "health_check" "Daily health check") hf1 h
  cases hr1 : (process_message e1 s
      (dailyMsg e1 s.agent.id "health_check" "Daily health check")).1 with
  | error e =>
    simp only [hr1]
    exact p1
  | ok u =>
    simp only [hr1]
    have p2 := process_message_deployments e2 _
      (dailyMsg e2 s.agent.id "backup_request" "Daily backup") hf2 p1
    cases hr2 : (process_message e2 (process_message e1 s
        (dailyMsg e1 s.agent.id "health_check" "Daily health check")).2
        (dailyMsg e2 s.agent.id "backup_request" "Daily backup")).1 with
    | error e =>
      simp only [hr2]
      exact p2
    | ok u =>
      simp only [hr2]
      exact process_message_deployments e3 _
        (dailyMsg e3 s.agent.id "scale_request" "Daily scaling check") hf3 p2

theorem applyOp_deployments (op : DevOpsOp) (s : DevOpsAgent)
    {did : Uuid} {d : Deployment} (hav : op.avoids did)
    (h : hmLookup did s.active_deployments = some d) :
    hmLookup did (DevOpsOp.apply s op).active_deployments = some d := by
  cases op with
  | procMsg env msg => exact process_message_deployments env s msg hav h
  | daily e1 e2 e3 =>
    exact perform_daily_tasks_deployments e1 e2 e3 s hav.1 hav.2.1 hav.2.2 h
  | provision env k cfg =>
    rw [DevOpsOp.apply, provision_server_deployments]
    exact h
  | deploy env cfg => exact deploy_application_deployments env s cfg (hav 0) h
  | execute eid => exact h
  | healthCheck env i server_id =>
    rw [DevOpsOp.apply, check_server_health_deployments]
    exact h
  | scale env =>
    rw [DevOpsOp.apply]
    simp only [auto_scale]
    rw [autoScaleGo_deployments]
    exact h
  | backup env =>
    rw [DevOpsOp.apply, perform_backup_deployments]
    exact h

end DevOps

/-- Claim C10: `deploy_application` returns the drawn deployment id having
stored the record with status `Pending` and `current_step` 0 (each step as
configured, all `Pending` through the message path); afterwards no operation
of the DevOps agent — message processing, daily tasks, provisioning, further
deployments (with fresh uuids), the detached executor, health checks,
auto-scaling, backups — ever updates that record: any run suffix leaves it
exactly as stored, so polling never observes completion, failure or
rollback. -/
theorem C10_deployment_never_updated :
    (∀ (env : Env) (s : DevOps.DevOpsAgent) (cfg : DevOps.DeploymentConfig),
       (DevOps.deploy_application env s cfg).1 = .ok (env.freshUuid 0) ∧
       hmLookup (env.freshUuid 0)
           (DevOps.deploy_application env s cfg).2.active_deployments =
         some { id := env.freshUuid 0, project_id := cfg.project_id,
                environment := cfg.environment, status := .Pending,
                start_time := env.nowTs, steps := cfg.steps,
                current_step := 0 }) ∧
    (∀ (ops : List DevOps.DevOpsOp) (s : DevOps.DevOpsAgent) (did : Uuid)
       (d : DevOps.Deployment),
       (∀ op ∈ ops, op.avoids did) →
       hmLookup did s.active_deployments = some d →
       hmLookup did (DevOps.runOps ops s).active_deployments = some d) := by
  constructor
  · intro env s cfg
    constructor
    · rfl
    · simp [DevOps.deploy_application, hmInsert, hmLookup_cons_self]
  · intro ops
    induction ops with
    | nil =>
      intro s did d _ h
      exact h
    | cons op rest ih =>
      intro s did d hav h
      rw [DevOps.runOps, List.foldl_cons]
      exact ih _ did d (fun o ho => hav o (List.mem_cons_of_mem op ho))
        (DevOps.applyOp_deployments op s (hav op (List.mem_cons_self op rest)) h)

/-- Witness for the C10 theorem: a pending deployment survives a backup, an
auto-scale pass and the detached executor untouched. -/
theorem C10_deployment_never_updated_witness :
    hmLookup 5 (DevOps.runOps
        [DevOps.DevOpsOp.backup envDefault, DevOps.DevOpsOp.scale envDefault,
         DevOps.DevOpsOp.execute 5]
        DevOps.exDeployAgent).active_deployments = some DevOps.exDeployment :=
  C10_deployment_never_updated.2 _ DevOps.exDeployAgent 5 DevOps.exDeployment
    (by
      intro op hop
      rcases List.mem_cons.mp hop with rfl | hop
      · intro k
        simp [envDefault]
      rcases List.mem_cons.mp hop with rfl | hop
      · intro k
        simp [envDefault]
      rcases List.mem_cons.mp hop with rfl | hop
      · trivial
      · cases hop)
    rfl

end AIvertCo
